import Mathlib

/-!
A shallow embedding of the x86-64 code generator `src/generator.c` of the VSL
compiler back end, together with theorems checking the specification's claims
about it.

Modelling conventions:

* Every emitted assembly line is a value of the inductive type `Instr`; the
  textual output of the C code is the list of these values in emission order.
* The mutable per-function context (`stack_alignment`, `label_mangle_index`
  and the cell currently referenced by the `bool *returned` pointer) is the
  explicit state `St` threaded through the generator.  The nullable
  `bool *returned` pointer is an `Option Bool` (`none` models NULL); handlers
  that hand their children a fresh local flag (`generate_if_statement`,
  `generate_while_statement`) run the children on `some false` and restore
  the caller's value afterwards, which is exactly how the distinct C stack
  cells behave, since pointers only flow downwards in the recursion.
* `fprintf(stderr, ...); exit(EXIT_FAILURE)` is modelled by the `fatal` field
  of `Out`; once set, sequencing stops and nothing further is emitted,
  matching the process exit.  The one non-fatal diagnostic
  (`skip_jump_by_relation`'s default case) goes to the `errs` list instead.
* `node_t` has a nullable child array (`node_t **children`), hence children
  are `List (Option Node)`; dereferencing a null or missing child, which
  would crash the C program, is modelled by the fatal marker `Err.nullNode`.
* The mutual recursion of the C functions is broken by handing each handler
  the recursive entry point as an explicit `recur` argument; `generate_node`
  itself is indexed by fuel (structural recursion on `Nat`), with
  `Err.outOfFuel` on exhaustion.  Claims about concrete programs are
  evaluated at a fuel larger than the tree depth.
* `unsigned int` counters are modelled by `Nat`; the only subtraction the
  code performs on them (`unalign_stack`) removes padding that was added by
  the matching `align_stack`/`allocate_aligned_stack`, so no wrap-around can
  occur on reachable states.  The `size_t` expression `nparms - 1` in
  `get_slot` can wrap (when `nparms == 0`), and is embedded with the
  wrap spelled out.
-/

namespace Vslc

/-- Kinds of symbols (`enum symtype` in the C front end). -/
inductive SymType where
  | SYM_GLOBAL_VAR
  | SYM_FUNCTION
  | SYM_PARAMETER
  | SYM_LOCAL_VAR
deriving DecidableEq, Repr

/-- `symbol_t`.  The `node` back-pointer of a function symbol is supplied
separately where needed (Lean structures cannot be mutually recursive with
`Node`), and the `locals` hash table is abstracted by its size
`localsSize = tlhash_size(locals)`. -/
structure Symbol where
  name : String
  type : SymType
  seq : Nat
  nparms : Nat
  localsSize : Nat
deriving DecidableEq, Repr

/-- Node kinds of the AST (`enum node_type`), restricted to the kinds the
generator dispatches on plus the generic list/block kinds. -/
inductive NodeType where
  | IF_STATEMENT
  | WHILE_STATEMENT
  | NULL_STATEMENT
  | EXPRESSION
  | RELATION
  | IDENTIFIER_DATA
  | NUMBER_DATA
  | STRING_DATA
  | ASSIGNMENT_STATEMENT
  | ADD_STATEMENT
  | SUBTRACT_STATEMENT
  | MULTIPLY_STATEMENT
  | DIVIDE_STATEMENT
  | PRINT_STATEMENT
  | RETURN_STATEMENT
  | DECLARATION
  | BLOCK
  | ARGUMENT_LIST
  | PROGRAM
deriving DecidableEq, Repr

/-- The `void *data` payload of a node, tagged by how the generator
reinterprets it: an operator / relation string, an owned `int64_t`, or an
owned `size_t` index into the string table. -/
inductive NodeData where
  | nothing
  | oper (s : String)
  | num (v : Int)
  | strIndex (i : Nat)
deriving DecidableEq, Repr

/-- `node_t`: kind tag, data payload, symbol-table entry pointer and the
(nullable) child pointers. -/
inductive Node where
  | mk (ty : NodeType) (data : NodeData) (entry : Option Symbol)
       (children : List (Option Node))

def Node.ty : Node → NodeType
  | .mk t _ _ _ => t

def Node.data : Node → NodeData
  | .mk _ d _ _ => d

def Node.entry : Node → Option Symbol
  | .mk _ _ e _ => e

def Node.children : Node → List (Option Node)
  | .mk _ _ _ cs => cs

/-- `node->n_children`. -/
def Node.n_children (n : Node) : Nat := n.children.length

/-- `char *op = node->data` for an `EXPRESSION` node: the operator string, or
`none` for the NULL pointer. -/
def Node.opData (n : Node) : Option String :=
  match n.data with
  | NodeData.oper s => some s
  | _ => none

/-- One emitted line of assembly text. -/
inductive Instr where
  | pushq (op : String)
  | popq (op : String)
  | subq_imm (n : Int) (dst : String)
  | addq_imm (n : Int) (dst : String)
  | movq (src : String) (dst : String)
  | callq (target : String)
  | deflabel (name : String)
  | jmp (l : String)
  | jne (l : String)
  | jng (l : String)
  | jnl (l : String)
  | jz (l : String)
  | loopl (l : String)
  | cmpq (a : String) (b : String)
  | orq
  | xorq
  | andq
  | addq
  | subq
  | imulq
  | idivq
  | cqto
  | negq (dst : String)
  | notq (dst : String)
  | leave
  | ret
  | comment (s : String)
  | directive (s : String)
deriving DecidableEq, Repr

/-- Fatal diagnostics: each constructor is one of the
`fprintf(stderr, ...); exit(EXIT_FAILURE)` sites of the generator, carrying
the names the C format string interpolates. -/
inductive Err where
  | invalidCall
  | arityMismatch (callee : String) (enclosing : String)
  | illegalReturn (enclosing : String)
  | illegalContinue (enclosing : String)
  | unsupportedSymbol (name : String)
  | nullNode
  | outOfFuel
deriving DecidableEq, Repr

/-- The mutable generation context: `*stack_alignment`,
`*label_mangle_index`, and the value of the cell currently referenced by the
`bool *returned` pointer (`none` when the pointer is NULL). -/
structure St where
  alignment : Nat
  mangle : Nat
  returned : Option Bool
deriving DecidableEq, Repr

/-- The result of running a piece of the generator: the emitted lines, the
non-fatal stderr diagnostics, the final context, and whether the process
exited with a fatal diagnostic (in which case `instrs` is what was emitted
before the exit). -/
structure Out where
  instrs : List Instr
  errs : List String
  st : St
  fatal : Option Err
deriving DecidableEq, Repr

def Out.ofSt (st : St) : Out := ⟨[], [], st, none⟩

def Out.emit (is : List Instr) (st : St) : Out := ⟨is, [], st, none⟩

def Out.emitErrs (is : List Instr) (es : List String) (st : St) : Out :=
  ⟨is, es, st, none⟩

def Out.fatalErr (st : St) (e : Err) : Out := ⟨[], [], st, some e⟩

/-- Sequential composition: run `f` on the final state unless the process
already exited. -/
def Out.seq (o : Out) (f : St → Out) : Out :=
  match o.fatal with
  | some _ => o
  | none =>
    let o2 := f o.st
    ⟨o.instrs ++ o2.instrs, o.errs ++ o2.errs, o2.st, o2.fatal⟩

/-- Concatenation of two independent outputs (used across top-level
functions, which do not share a context). -/
def Out.append (a b : Out) : Out :=
  match a.fatal with
  | some _ => a
  | none => ⟨a.instrs ++ b.instrs, a.errs ++ b.errs, b.st, b.fatal⟩

/-- Overwrite the `returned` cell value of the final state; used to model
that a callee only ever touched a fresh local cell (or a NULL pointer), so
the caller's own cell still holds its old value. -/
def Out.withReturned (o : Out) (r : Option Bool) : Out :=
  { o with st := { o.st with returned := r } }

/-- `struct compilation_target_t` minus the pieces threaded through `St`. -/
structure CTarget where
  node : Option Node
  function : Symbol
  target_destination : String
  surrounding_loop_label : Option String

/-- The type of the recursive entry point (`generate_node`) as seen by the
individual handlers. -/
def Recur := CTarget → St → Out

/-- `PARAMETER_REGISTERS[i]` (out-of-range access, impossible in the C code
paths, yields `""`). -/
def parameter_register (i : Nat) : String :=
  match i with
  | 0 => "%rdi"
  | 1 => "%rsi"
  | 2 => "%rdx"
  | 3 => "%rcx"
  | 4 => "%r8"
  | 5 => "%r9"
  | _ => ""

/-- `allocate_aligned_stack`: grow the counter by `slots*8`, pad it to a
multiple of 16, and emit a single `subq` unless both parts are zero.
Returns (pad, lines, new state). -/
def allocate_aligned_stack (slots : Nat) (st : St) : Nat × List Instr × St :=
  let a1 := st.alignment + slots * 8
  let offset : Nat := if a1 % 16 ≠ 0 then 16 - a1 % 16 else 0
  let a2 := a1 + offset
  if offset = 0 ∧ slots = 0 then (0, [], { st with alignment := a2 })
  else (offset, [Instr.subq_imm (Int.ofNat (slots * 8 + offset)) "%rsp"],
        { st with alignment := a2 })

/-- `allocate_stack`. -/
def allocate_stack (slots : Nat) (st : St) : List Instr × St :=
  if slots = 0 then ([], st)
  else ([Instr.subq_imm (Int.ofNat (slots * 8)) "%rsp"],
        { st with alignment := st.alignment + slots * 8 })

/-- `align_stack`: pad the counter to a multiple of 16, returning the pad. -/
def align_stack (st : St) : Nat × List Instr × St :=
  if st.alignment % 16 = 0 then (0, [], st)
  else
    let offset := 16 - st.alignment % 16
    (offset, [Instr.subq_imm (Int.ofNat offset) "%rsp"],
     { st with alignment := st.alignment + offset })

/-- `unalign_stack`. -/
def unalign_stack (alignment : Nat) (st : St) : List Instr × St :=
  if alignment ≠ 0 then
    ([Instr.addq_imm (Int.ofNat alignment) "%rsp"],
     { st with alignment := st.alignment - alignment })
  else ([], st)

/-- `make_label`: `._<function>_<tag><n>` with `n` the current value of
`*label_mangle_index`. -/
def make_label (tag : String) (fname : String) (mangle : Nat) : String :=
  "._" ++ fname ++ "_" ++ tag ++ toString mangle

/-- The `%d(%%rbp)` operand of frame slot `slot`, as printed by
`move_reg_to_slot`, `move_slot_to_reg` and `write_variable_accessor`:
byte offset `(slot + 1) * -8`. -/
def slot_operand (slot : Int) : String :=
  toString ((slot + 1) * (-8)) ++ "(%rbp)"

def move_reg_to_slot (reg : String) (slot : Int) : Instr :=
  Instr.movq reg (slot_operand slot)

def move_slot_to_reg (reg : String) (slot : Int) : Instr :=
  Instr.movq (slot_operand slot) reg

def move_reg_to_global (reg : String) (global : String) : Instr :=
  Instr.movq reg ("." ++ global)

def move_global_to_reg (reg : String) (global : String) : Instr :=
  Instr.movq ("." ++ global) reg

/-- `get_variable_count`: `tlhash_size(function->locals) - function->nparms`. -/
def get_variable_count (function : Symbol) : Nat :=
  function.localsSize - function.nparms

/-- `get_slot`.  The C parameter branch is
`MIN(5, function->nparms - 1) - sym->seq` computed in `size_t`, so
`nparms - 1` wraps modulo 2^64 when `nparms = 0`; the wrap is spelled out.
The final value is converted to `int`, modelled by `Int` (no valid symbol
table produces a value outside the `int` range). -/
def get_slot (function : Symbol) (sym : Symbol) : Int :=
  if sym.type = SymType.SYM_PARAMETER then
    Int.ofNat (min 5 ((function.nparms + (2 ^ 64 - 1)) % 2 ^ 64)) - Int.ofNat sym.seq
  else
    Int.ofNat sym.seq + Int.ofNat (min 6 function.nparms)

/-- `write_param_accessor`: the destination of argument `param` at a call
site — a parameter register below index 6, `(param-6)*8(%rsp)` above. -/
def write_param_accessor (param : Nat) : String :=
  if param < 6 then parameter_register param
  else toString ((param - 6) * 8) ++ "(%rsp)"

/-- `access_variable`: load the value of `sym` into `reg`. -/
def access_variable (reg : String) (sym : Symbol) (function : Symbol) (st : St) : Out :=
  match sym.type with
  | SymType.SYM_GLOBAL_VAR => Out.emit [move_global_to_reg reg sym.name] st
  | SymType.SYM_LOCAL_VAR => Out.emit [move_slot_to_reg reg (get_slot function sym)] st
  | SymType.SYM_PARAMETER => Out.emit [move_slot_to_reg reg (get_slot function sym)] st
  | SymType.SYM_FUNCTION => Out.fatalErr st (Err.unsupportedSymbol sym.name)

/-- `write_variable`: store `reg` back into `sym`. -/
def write_variable (reg : String) (sym : Symbol) (function : Symbol) (st : St) : Out :=
  match sym.type with
  | SymType.SYM_GLOBAL_VAR => Out.emit [move_reg_to_global reg sym.name] st
  | SymType.SYM_LOCAL_VAR => Out.emit [move_reg_to_slot reg (get_slot function sym)] st
  | SymType.SYM_PARAMETER => Out.emit [move_reg_to_slot reg (get_slot function sym)] st
  | SymType.SYM_FUNCTION => Out.fatalErr st (Err.unsupportedSymbol sym.name)

/-- `write_variable_accessor`: the operand form of `sym` (`.name` for a
global, `k(%rbp)` for a parameter or local), or the fatal diagnostic. -/
def write_variable_accessor (sym : Symbol) (function : Symbol) : Except Err String :=
  match sym.type with
  | SymType.SYM_GLOBAL_VAR => Except.ok ("." ++ sym.name)
  | SymType.SYM_LOCAL_VAR => Except.ok (slot_operand (get_slot function sym))
  | SymType.SYM_PARAMETER => Except.ok (slot_operand (get_slot function sym))
  | SymType.SYM_FUNCTION => Except.error (Err.unsupportedSymbol sym.name)

/-- `skip_jump_by_relation`: the complementary jump for a relation operator
character; an unknown operator prints a diagnostic to stderr (second
component) without exiting and emits no jump. -/
def skip_jump_by_relation (relation : Char) (label : String) : List Instr × List String :=
  match relation with
  | '=' => ([Instr.jne label], [])
  | '>' => ([Instr.jng label], [])
  | '<' => ([Instr.jnl label], [])
  | _ => ([], [String.push "Unknown relation operator " relation])

/-- `*((char *)relation->data)`: the first character of a relation node's
operator string (a blank models the undefined value of a malformed node). -/
def node_op_char (n? : Option Node) : Char :=
  match n? with
  | some n =>
    match n.data with
    | NodeData.oper s => s.front
    | _ => ' '
  | none => ' '

/-- The bookkeeping of `*((size_t *)item->data)` for `STRING_DATA`. -/
def node_str_index (n : Node) : Nat :=
  match n.data with
  | NodeData.strIndex i => i
  | _ => 0

/-- The bookkeeping of `*((int64_t *)node->data)` for `NUMBER_DATA`. -/
def node_num_value (n : Node) : Int :=
  match n.data with
  | NodeData.num v => v
  | _ => 0

/-- The per-operator instruction list of the binary-operator `switch` in
`generate_expression` (an unknown operator emits nothing). -/
def binop_emit (c : Char) : List Instr :=
  match c with
  | '|' => [Instr.orq]
  | '^' => [Instr.xorq]
  | '&' => [Instr.andq]
  | '+' => [Instr.addq]
  | '-' => [Instr.subq]
  | '*' => [Instr.imulq]
  | '/' => [Instr.cqto, Instr.idivq]
  | _ => []

/-- The instruction list of the compound-assignment `switch` in
`generate_assignment`. -/
def compound_emit (ty : NodeType) : List Instr :=
  match ty with
  | NodeType.ADD_STATEMENT => [Instr.addq]
  | NodeType.SUBTRACT_STATEMENT => [Instr.subq]
  | NodeType.DIVIDE_STATEMENT => [Instr.cqto, Instr.idivq]
  | NodeType.MULTIPLY_STATEMENT => [Instr.imulq]
  | _ => []

/-- The argument-marshalling loop of `call_function`: for each parameter
index, lower the matching argument directly into its accessor, with a NULL
`returned` pointer. -/
def gen_args (recur : Recur) (t : CTarget) (arglist : Option Node) :
    List Nat → St → Out
  | [], st => Out.ofSt st
  | param :: rest, st =>
    let arg : Option Node :=
      match arglist with
      | none => none
      | some al => (al.children.get? param).join
    let child : CTarget :=
      { node := arg, function := t.function,
        target_destination := write_param_accessor param,
        surrounding_loop_label := t.surrounding_loop_label }
    (recur child { st with returned := none }).seq (gen_args recur t arglist rest)

/-- `argument_list == NULL ? 0 : argument_list->n_children`. -/
def args_provided (arglist? : Option Node) : Nat :=
  match arglist? with
  | none => 0
  | some al => al.n_children

/-- `call_function`. -/
def call_function (recur : Recur) (t : CTarget) (st : St) : Out :=
  match t.node with
  | none => Out.fatalErr st Err.nullNode
  | some n =>
    if n.n_children ≠ 2 then Out.fatalErr st Err.invalidCall
    else
      match n.children with
      | [ident?, arglist?] =>
        match ident? with
        | none => Out.fatalErr st Err.nullNode
        | some identifier =>
          match identifier.entry with
          | none => Out.fatalErr st Err.nullNode
          | some func =>
            if args_provided arglist? ≠ func.nparms then
              Out.fatalErr st (Err.arityMismatch func.name t.function.name)
            else
              let al := allocate_aligned_stack (max 6 func.nparms - 6) st
              ((Out.emit al.2.1 al.2.2).seq (fun st1 =>
                (gen_args recur t arglist? (List.range func.nparms) st1).seq (fun st2 =>
                  (Out.emit [Instr.callq ("_func_" ++ func.name)] st2).seq (fun st3 =>
                    let ua := unalign_stack al.1 st3
                    Out.emit ua.1 ua.2)))).withReturned st.returned
      | _ => Out.fatalErr st Err.invalidCall

/-- `generate_expression`.  The final-move guards are the C string
comparisons: full `strcmp` against `"%rax"` in the call case, and
`strncmp(.., 4)` — a comparison of the first four characters — in the
binary-operator case. -/
def generate_expression (recur : Recur) (t : CTarget) (st : St) : Out :=
  match t.node with
  | none => Out.fatalErr st Err.nullNode
  | some n =>
    match n.opData with
    | none =>
      if n.n_children = 2 then
        (call_function recur t st).seq (fun st1 =>
          if t.target_destination ≠ "%rax" then
            Out.emit [Instr.movq "%rax" t.target_destination] st1
          else Out.ofSt st1)
      else
        recur { t with node := (n.children.get? 0).join } st
    | some op =>
      let c1 := (n.children.get? 0).join
      if n.n_children = 1 then
        (recur { t with node := c1 } st).seq (fun st1 =>
          match op.front with
          | '-' => Out.emit [Instr.negq t.target_destination] st1
          | '~' => Out.emit [Instr.notq t.target_destination] st1
          | _ => Out.ofSt st1)
      else
        let c2 := (n.children.get? 1).join
        ((recur { node := c2, function := t.function, target_destination := "%rax",
                  surrounding_loop_label := t.surrounding_loop_label }
            { st with returned := none }).seq (fun st1 =>
          (Out.emit [Instr.pushq "%rax"] { st1 with alignment := st1.alignment + 8 }).seq (fun st2 =>
            (recur { node := c1, function := t.function, target_destination := "%rax",
                     surrounding_loop_label := t.surrounding_loop_label }
                { st2 with returned := none }).seq (fun st3 =>
              (Out.emit [Instr.popq "%r10"] { st3 with alignment := st3.alignment - 8 }).seq (fun st4 =>
                (Out.emit (binop_emit op.front) st4).seq (fun st5 =>
                  if t.target_destination.toList.take 4 ≠ ['%', 'r', 'a', 'x'] then
                    Out.emit [Instr.movq "%rax" t.target_destination] st5
                  else Out.ofSt st5)))))).withReturned st.returned

/-- `generate_conditional`: left child into `%rax`, spill, right child into
`%r11`, reload into `%r10`, compare. -/
def generate_conditional (recur : Recur) (t : CTarget) (st : St) : Out :=
  match t.node with
  | none => Out.fatalErr st Err.nullNode
  | some relation =>
    let lh := (relation.children.get? 0).join
    let rh := (relation.children.get? 1).join
    ((recur { node := lh, function := t.function, target_destination := "%rax",
              surrounding_loop_label := t.surrounding_loop_label }
        { st with returned := none }).seq (fun st1 =>
      (Out.emit [Instr.pushq "%rax"] { st1 with alignment := st1.alignment + 8 }).seq (fun st2 =>
        (recur { node := rh, function := t.function, target_destination := "%r11",
                 surrounding_loop_label := t.surrounding_loop_label }
            { st2 with returned := none }).seq (fun st3 =>
          Out.emit [Instr.popq "%r10", Instr.cmpq "%r11" "%r10"]
            { st3 with alignment := st3.alignment - 8 })))).withReturned st.returned

/-- `generate_if_statement`.  Children run on a fresh local `returned` cell
(`some false`); the first skip label is captured before the then-branch is
lowered, the end label (when an else exists) after it; the mangle counter is
incremented once at the end. -/
def generate_if_statement (recur : Recur) (t : CTarget) (st : St) : Out :=
  match t.node with
  | none => Out.fatalErr st Err.nullNode
  | some n =>
    let relation := (n.children.get? 0).join
    let has_else := n.n_children = 3
    ((generate_conditional recur
        { node := relation, function := t.function, target_destination := "",
          surrounding_loop_label := t.surrounding_loop_label }
        { st with returned := some false }).seq (fun st1 =>
      let first_skip := make_label (if has_else then "ELSE" else "ENDIF")
        t.function.name st1.mangle
      let sj := skip_jump_by_relation (node_op_char relation) first_skip
      (Out.emitErrs sj.1 sj.2 st1).seq (fun st2 =>
        (recur { node := (n.children.get? 1).join, function := t.function,
                 target_destination := "",
                 surrounding_loop_label := t.surrounding_loop_label } st2).seq (fun st3 =>
          let control_end := make_label "ENDIF" t.function.name st3.mangle
          ((if has_else then Out.emit [Instr.jmp control_end] st3
            else Out.ofSt st3)).seq (fun st4 =>
            (Out.emit [Instr.deflabel first_skip] st4).seq (fun st5 =>
              ((if has_else then
                  (recur { node := (n.children.get? 2).join, function := t.function,
                           target_destination := "",
                           surrounding_loop_label := t.surrounding_loop_label } st5).seq
                    (fun st6 => Out.emit [Instr.deflabel control_end] st6)
                else Out.ofSt st5)).seq (fun st7 =>
                Out.ofSt { st7 with mangle := st7.mangle + 1 }))))))).withReturned st.returned

/-- `generate_while_statement`.  Both labels are captured before anything is
emitted; the body runs with the surrounding-loop label set to the check
label; the mangle counter is incremented once at the end. -/
def generate_while_statement (recur : Recur) (t : CTarget) (st : St) : Out :=
  match t.node with
  | none => Out.fatalErr st Err.nullNode
  | some n =>
    let check_label := make_label "WCHECK" t.function.name st.mangle
    let end_label := make_label "WEND" t.function.name st.mangle
    let relation := (n.children.get? 0).join
    let body := (n.children.get? 1).join
    ((Out.emit [Instr.deflabel check_label] { st with returned := some false }).seq (fun st1 =>
      (generate_conditional recur
          { node := relation, function := t.function, target_destination := "",
            surrounding_loop_label := t.surrounding_loop_label } st1).seq (fun st2 =>
        let sj := skip_jump_by_relation (node_op_char relation) end_label
        (Out.emitErrs sj.1 sj.2 st2).seq (fun st3 =>
          (recur { node := body, function := t.function, target_destination := "",
                   surrounding_loop_label := some check_label } st3).seq (fun st4 =>
            (Out.emit [Instr.jmp check_label, Instr.deflabel end_label] st4).seq (fun st5 =>
              Out.ofSt { st5 with mangle := st5.mangle + 1 })))))).withReturned st.returned

/-- `generate_assignment`, covering `ASSIGNMENT_STATEMENT` and the compound
arithmetic assignments. -/
def generate_assignment (recur : Recur) (t : CTarget) (st : St) : Out :=
  match t.node with
  | none => Out.fatalErr st Err.nullNode
  | some n =>
    let var := (n.children.get? 0).join
    let value := (n.children.get? 1).join
    match var with
    | none => Out.fatalErr st Err.nullNode
    | some varNode =>
      match varNode.entry with
      | none => Out.fatalErr st Err.nullNode
      | some sym =>
        if n.ty = NodeType.ASSIGNMENT_STATEMENT then
          match write_variable_accessor sym t.function with
          | Except.error e => Out.fatalErr st e
          | Except.ok accessor =>
            (recur { node := value, function := t.function, target_destination := "%rax",
                     surrounding_loop_label := t.surrounding_loop_label } st).seq (fun st1 =>
              Out.emit [Instr.movq "%rax" accessor] st1)
        else
          (recur { node := value, function := t.function, target_destination := "%r10",
                   surrounding_loop_label := t.surrounding_loop_label } st).seq (fun st1 =>
            (access_variable "%rax" sym t.function st1).seq (fun st2 =>
              (Out.emit (compound_emit n.ty) st2).seq (fun st3 =>
                write_variable "%rax" sym t.function st3)))

/-- `genereate_number_data` (the typo is the source's). -/
def genereate_number_data (t : CTarget) (st : St) : Out :=
  match t.node with
  | none => Out.fatalErr st Err.nullNode
  | some n =>
    Out.emit [Instr.movq ("$" ++ toString (node_num_value n)) t.target_destination] st

/-- The align / `call printf` / unalign triple emitted after every print
item and for the final newline. -/
def printf_call (st : St) : Out :=
  let al := align_stack st
  let ua := unalign_stack al.1 al.2.2
  Out.emit (al.2.1 ++ [Instr.callq "printf"] ++ ua.1) ua.2

/-- The item loop of `generate_print_statement`. -/
def generate_print_items (recur : Recur) (t : CTarget) :
    List (Option Node) → St → Out
  | [], st => Out.ofSt st
  | item? :: rest, st =>
    match item? with
    | none => Out.fatalErr st Err.nullNode
    | some item =>
      let itemOut : Out :=
        match item.ty with
        | NodeType.STRING_DATA =>
          Out.emit [Instr.movq "$.strout" "%rdi",
                    Instr.movq ("$.STR" ++ toString (node_str_index item)) "%rsi"] st
        | NodeType.IDENTIFIER_DATA =>
          match item.entry with
          | none => Out.fatalErr st Err.nullNode
          | some sym =>
            (Out.emit [Instr.movq "$.intout" "%rdi"] st).seq (fun st1 =>
              access_variable "%rsi" sym t.function st1)
        | NodeType.EXPRESSION =>
          (recur { node := some item, function := t.function,
                   target_destination := "%rsi",
                   surrounding_loop_label := t.surrounding_loop_label } st).seq (fun st1 =>
            Out.emit [Instr.movq "$.intout" "%rdi"] st1)
        | _ => Out.ofSt st
      (itemOut.seq (fun st2 => printf_call st2)).seq (generate_print_items recur t rest)

/-- `generate_print_statement`. -/
def generate_print_statement (recur : Recur) (t : CTarget) (st : St) : Out :=
  match t.node with
  | none => Out.fatalErr st Err.nullNode
  | some n =>
    (generate_print_items recur t n.children st).seq (fun st1 =>
      (Out.emit [Instr.movq "$.newline" "%rdi"] st1).seq (fun st2 => printf_call st2))

/-- `generate_return_statement`: fatal when the `returned` pointer is NULL,
otherwise set the cell, lower the value into `%rax`, and emit the
epilogue. -/
def generate_return_statement (recur : Recur) (t : CTarget) (st : St) : Out :=
  match st.returned with
  | none => Out.fatalErr st (Err.illegalReturn t.function.name)
  | some _ =>
    match t.node with
    | none => Out.fatalErr st Err.nullNode
    | some n =>
      (recur { node := (n.children.get? 0).join, function := t.function,
               target_destination := "%rax",
               surrounding_loop_label := t.surrounding_loop_label }
          { st with returned := some true }).seq (fun st1 =>
        Out.emit [Instr.leave, Instr.ret] st1)

/-- The default branch of `generate_node`: iterate the children in order,
skipping `DECLARATION` nodes, passing the parent's destination through. -/
def generate_children (recur : Recur) (t : CTarget) :
    List (Option Node) → St → Out
  | [], st => Out.ofSt st
  | child? :: rest, st =>
    match child? with
    | none => Out.fatalErr st Err.nullNode
    | some child =>
      if child.ty = NodeType.DECLARATION then generate_children recur t rest st
      else
        (recur { node := some child, function := t.function,
                 target_destination := t.target_destination,
                 surrounding_loop_label := t.surrounding_loop_label } st).seq
          (generate_children recur t rest)

/-- `generate_node`, indexed by fuel. -/
def generate_node : Nat → CTarget → St → Out
  | 0, _, st => Out.fatalErr st Err.outOfFuel
  | fuel + 1, t, st =>
    match t.node with
    | none => Out.fatalErr st Err.nullNode
    | some n =>
      match n.ty with
      | NodeType.IF_STATEMENT => generate_if_statement (generate_node fuel) t st
      | NodeType.WHILE_STATEMENT => generate_while_statement (generate_node fuel) t st
      | NodeType.NULL_STATEMENT =>
        match t.surrounding_loop_label with
        | none => Out.fatalErr st (Err.illegalContinue t.function.name)
        | some lbl => Out.emit [Instr.jmp lbl] st
      | NodeType.EXPRESSION => generate_expression (generate_node fuel) t st
      | NodeType.IDENTIFIER_DATA =>
        match n.entry with
        | none => Out.fatalErr st Err.nullNode
        | some sym => access_variable t.target_destination sym t.function st
      | NodeType.NUMBER_DATA => genereate_number_data t st
      | NodeType.ASSIGNMENT_STATEMENT => generate_assignment (generate_node fuel) t st
      | NodeType.ADD_STATEMENT => generate_assignment (generate_node fuel) t st
      | NodeType.SUBTRACT_STATEMENT => generate_assignment (generate_node fuel) t st
      | NodeType.DIVIDE_STATEMENT => generate_assignment (generate_node fuel) t st
      | NodeType.MULTIPLY_STATEMENT => generate_assignment (generate_node fuel) t st
      | NodeType.PRINT_STATEMENT => generate_print_statement (generate_node fuel) t st
      | NodeType.RETURN_STATEMENT => generate_return_statement (generate_node fuel) t st
      | _ =>
        if st.returned = some true then Out.ofSt st
        else generate_children (generate_node fuel) t n.children st

/-- `generate_function`: directives, prologue, frame allocation, moving the
register-passed parameters into their slots, the body, and the implicit
epilogue when no return was emitted on the outermost path. -/
def generate_function (fuel : Nat) (function : Symbol) (body : Option Node) : Out :=
  let st0 : St := { alignment := 0, mangle := 0, returned := some false }
  let paramc := min 6 function.nparms
  let alo := allocate_stack (paramc + get_variable_count function) st0
  let moves := (List.range paramc).map (fun param =>
    move_reg_to_slot (parameter_register (paramc - param - 1)) (Int.ofNat param))
  let pro : List Instr :=
    [Instr.directive (".globl _func_" ++ function.name),
     Instr.deflabel ("_func_" ++ function.name),
     Instr.pushq "%rbp", Instr.movq "%rsp" "%rbp"]
  (Out.emit (pro ++ alo.1 ++ moves) alo.2).seq (fun st1 =>
    (generate_node fuel
        { node := body, function := function, target_destination := "%rax",
          surrounding_loop_label := none } st1).seq (fun st2 =>
      if st2.returned = some true then Out.ofSt st2
      else Out.emit [Instr.comment "Automatically generated return statement",
                     Instr.movq "$0" "%rax", Instr.leave, Instr.ret] st2))

/-- The entry-function update of the loop in `generate_functions`:
`is_main = !strncmp("main", sym->name, 6)` (full equality with `"main"`),
and the symbol is taken when it is `main`, or when no `main` has locked the
choice and it improves (or initializes) the smallest-`seq` candidate. -/
def entry_select_step (acc : Option Symbol × Bool) (sym : Symbol) :
    Option Symbol × Bool :=
  if sym.type ≠ SymType.SYM_FUNCTION then acc
  else
    let is_main := sym.name == "main"
    let take_it := is_main ||
      (!acc.2 && (match acc.1 with
        | none => true
        | some m => decide (m.seq > sym.seq)))
    if take_it then (some sym, is_main) else acc

/-- The entry function selected by a full iteration of the globals table. -/
def select_entry (globals : List Symbol) : Option Symbol :=
  (globals.foldl entry_select_step (none, false)).1

/-- `generate_functions`: iterate the globals, generating each function and
maintaining the entry-function candidate. -/
def generate_functions (fuel : Nat) (globals : List Symbol)
    (bodyOf : Symbol → Option Node) : (Option Symbol × Bool) × Out :=
  globals.foldl
    (fun acc sym =>
      if sym.type = SymType.SYM_FUNCTION then
        (entry_select_step acc.1 sym,
         acc.2.append (generate_function fuel sym (bodyOf sym)))
      else acc)
    ((none, false),
     Out.emit [Instr.directive ".section .text"]
       { alignment := 0, mangle := 0, returned := none })

/-- `generate_main`: the fixed trampoline, parameterized by the entry
function `first`. -/
def generate_main (first : Symbol) : Out :=
  let st0 : St := { alignment := 0, mangle := 0, returned := none }
  let head : List Instr :=
    [Instr.directive ".globl main", Instr.directive ".section .text",
     Instr.deflabel "main",
     Instr.pushq "%rbp", Instr.movq "%rsp" "%rbp",
     Instr.subq_imm 1 "%rdi",
     Instr.cmpq ("$" ++ toString first.nparms) "%rdi",
     Instr.jne "ABORT",
     Instr.cmpq "$0" "%rdi",
     Instr.jz "SKIP_ARGS",
     Instr.movq "%rdi" "%rcx",
     Instr.addq_imm (Int.ofNat (8 * first.nparms)) "%rsi",
     Instr.deflabel "PARSE_ARGV",
     Instr.pushq "%rcx", Instr.pushq "%rsi",
     Instr.movq "(%rsi)" "%rdi",
     Instr.movq "$0" "%rsi",
     Instr.movq "$10" "%rdx",
     Instr.callq "strtol",
     Instr.popq "%rsi", Instr.popq "%rcx",
     Instr.pushq "%rax",
     Instr.subq_imm 8 "%rsi",
     Instr.loopl "PARSE_ARGV"]
  let pops := (List.range (min 6 first.nparms)).map
    (fun arg => Instr.popq (parameter_register arg))
  let st1 : St := { st0 with alignment := st0.alignment + (max 6 first.nparms - 6) * 8 }
  let al := align_stack st1
  let ua := unalign_stack al.1 al.2.2
  Out.emit (head ++ pops ++
    [Instr.deflabel "SKIP_ARGS"] ++ al.2.1 ++
    [Instr.callq ("_func_" ++ first.name)] ++ ua.1 ++
    [Instr.jmp "END", Instr.deflabel "ABORT",
     Instr.movq "$.errout" "%rdi", Instr.callq "puts",
     Instr.deflabel "END",
     Instr.movq "%rax" "%rdi", Instr.callq "exit"]) ua.2

/-! ### Static checkers over emitted instruction lists -/

/-- Net number of bytes an instruction subtracts from `%rsp`. -/
def net_sub (i : Instr) : Int :=
  match i with
  | Instr.pushq _ => 8
  | Instr.popq _ => -8
  | Instr.subq_imm n dst => if dst = "%rsp" then n else 0
  | Instr.addq_imm n dst => if dst = "%rsp" then -n else 0
  | _ => 0

/-- Scan a straight-line instruction sequence starting from `a` bytes
subtracted since the prologue, and check that every `call` happens at a
multiple of 16. -/
def calls_aligned (a : Int) : List Instr → Bool
  | [] => true
  | i :: rest =>
    (match i with
     | Instr.callq _ => decide (a % 16 = 0)
     | _ => true) && calls_aligned (a + net_sub i) rest

/-- The labels defined (with a trailing colon) in an instruction list. -/
def defined_labels : List Instr → List String
  | [] => []
  | Instr.deflabel s :: rest => s :: defined_labels rest
  | _ :: rest => defined_labels rest

/-! ### Syntactic predicate for claim C8 -/

mutual

/-- Every `RETURN_STATEMENT` below this node lies inside the body of an
`IF_STATEMENT` or `WHILE_STATEMENT` (whose children all run on a fresh local
`returned` cell); the node itself is not a return. -/
def no_exposed_return : Node → Bool
  | Node.mk ty _ _ cs =>
    if ty = NodeType.RETURN_STATEMENT then false
    else if ty = NodeType.IF_STATEMENT ∨ ty = NodeType.WHILE_STATEMENT then true
    else no_exposed_return_list cs

def no_exposed_return_list : List (Option Node) → Bool
  | [] => true
  | none :: rest => no_exposed_return_list rest
  | some m :: rest => no_exposed_return m && no_exposed_return_list rest

end

/-! ### Concrete input programs used to evaluate the generator -/

/-- An identifier node referencing `sym`. -/
def ident_node (sym : Symbol) : Node :=
  Node.mk NodeType.IDENTIFIER_DATA NodeData.nothing (some sym) []

/-- A number literal node. -/
def num_node (v : Int) : Node :=
  Node.mk NodeType.NUMBER_DATA (NodeData.num v) none []

/-- A call expression `callee(args)` (an `EXPRESSION` node with a NULL
operator and two children). -/
def call_node (callee : Symbol) (args : List (Option Node)) : Node :=
  Node.mk NodeType.EXPRESSION NodeData.nothing none
    [some (ident_node callee),
     some (Node.mk NodeType.ARGUMENT_LIST NodeData.nothing none args)]

/-- A relation node `l <op> r`. -/
def rel_node (op : String) (l r : Node) : Node :=
  Node.mk NodeType.RELATION (NodeData.oper op) none [some l, some r]

/-- Example symbol: `g`, a function of 7 parameters. -/
def sym_g : Symbol :=
  { name := "g", type := SymType.SYM_FUNCTION, seq := 0, nparms := 7, localsSize := 7 }

/-- Example symbol: `f`, a function of 1 parameter. -/
def sym_f : Symbol :=
  { name := "f", type := SymType.SYM_FUNCTION, seq := 1, nparms := 1, localsSize := 1 }

/-- Example symbol: `h`, a function of no parameters and no locals. -/
def sym_h : Symbol :=
  { name := "h", type := SymType.SYM_FUNCTION, seq := 2, nparms := 0, localsSize := 0 }

/-- Example symbol: the global variable `x`. -/
def sym_x : Symbol :=
  { name := "x", type := SymType.SYM_GLOBAL_VAR, seq := 0, nparms := 0, localsSize := 0 }

/-- Body of `h`: `return f(g(1,2,3,4,5,6,7))`.  The inner call passes its
seventh argument on the stack. -/
def body_h : Node :=
  Node.mk NodeType.RETURN_STATEMENT NodeData.nothing none
    [some (call_node sym_f
      [some (call_node sym_g
        [some (num_node 1), some (num_node 2), some (num_node 3),
         some (num_node 4), some (num_node 5), some (num_node 6),
         some (num_node 7)])])]

/-- The assignment `x := 1`. -/
def assign_x_1 : Node :=
  Node.mk NodeType.ASSIGNMENT_STATEMENT NodeData.nothing none
    [some (ident_node sym_x), some (num_node 1)]

/-- Body of `q`: `if 1 > 0 { if 1 > 0 { x := 1 } }` — an if without else
whose then-branch is another if without else. -/
def body_q : Node :=
  Node.mk NodeType.IF_STATEMENT NodeData.nothing none
    [some (rel_node ">" (num_node 1) (num_node 0)),
     some (Node.mk NodeType.IF_STATEMENT NodeData.nothing none
       [some (rel_node ">" (num_node 1) (num_node 0)),
        some assign_x_1])]

/-- Example symbol: `q`, a function of no parameters and no locals. -/
def sym_q : Symbol :=
  { name := "q", type := SymType.SYM_FUNCTION, seq := 3, nparms := 0, localsSize := 0 }

/-- Body used for the C8 witness: a block whose first statement is an `if`
containing a `return`, followed by a sibling assignment. -/
def body_c8 : Node :=
  Node.mk NodeType.BLOCK NodeData.nothing none
    [some (Node.mk NodeType.IF_STATEMENT NodeData.nothing none
      [some (rel_node ">" (num_node 1) (num_node 0)),
       some (Node.mk NodeType.RETURN_STATEMENT NodeData.nothing none
         [some (num_node 7)])]),
     some assign_x_1]

/-! ### Generic lemmas about the emission machinery -/

@[simp]
theorem Out.ofSt_instrs (st : St) : (Out.ofSt st).instrs = [] := rfl

@[simp]
theorem Out.ofSt_errs (st : St) : (Out.ofSt st).errs = [] := rfl

@[simp]
theorem Out.ofSt_st (st : St) : (Out.ofSt st).st = st := rfl

@[simp]
theorem Out.ofSt_fatal (st : St) : (Out.ofSt st).fatal = none := rfl

@[simp]
theorem Out.emit_instrs (is : List Instr) (st : St) : (Out.emit is st).instrs = is := rfl

@[simp]
theorem Out.emit_errs (is : List Instr) (st : St) : (Out.emit is st).errs = [] := rfl

@[simp]
theorem Out.emit_st (is : List Instr) (st : St) : (Out.emit is st).st = st := rfl

@[simp]
theorem Out.emit_fatal (is : List Instr) (st : St) : (Out.emit is st).fatal = none := rfl

@[simp]
theorem Out.emitErrs_instrs (is : List Instr) (es : List String) (st : St) :
    (Out.emitErrs is es st).instrs = is := rfl

@[simp]
theorem Out.emitErrs_errs (is : List Instr) (es : List String) (st : St) :
    (Out.emitErrs is es st).errs = es := rfl

@[simp]
theorem Out.emitErrs_st (is : List Instr) (es : List String) (st : St) :
    (Out.emitErrs is es st).st = st := rfl

@[simp]
theorem Out.emitErrs_fatal (is : List Instr) (es : List String) (st : St) :
    (Out.emitErrs is es st).fatal = none := rfl

@[simp]
theorem Out.fatalErr_st (st : St) (e : Err) : (Out.fatalErr st e).st = st := rfl

@[simp]
theorem Out.fatalErr_fatal (st : St) (e : Err) : (Out.fatalErr st e).fatal = some e := rfl

@[simp]
theorem Out.fatalErr_instrs (st : St) (e : Err) : (Out.fatalErr st e).instrs = [] := rfl

@[simp]
theorem Out.withReturned_instrs (o : Out) (r : Option Bool) :
    (o.withReturned r).instrs = o.instrs := rfl

@[simp]
theorem Out.withReturned_errs (o : Out) (r : Option Bool) :
    (o.withReturned r).errs = o.errs := rfl

@[simp]
theorem Out.withReturned_fatal (o : Out) (r : Option Bool) :
    (o.withReturned r).fatal = o.fatal := rfl

@[simp]
theorem Out.withReturned_returned (o : Out) (r : Option Bool) :
    (o.withReturned r).st.returned = r := rfl

/-- Unfolding of `Out.seq` when the first component did not exit. -/
theorem Out.seq_of_none {o : Out} (f : St → Out) (h : o.fatal = none) :
    o.seq f = ⟨o.instrs ++ (f o.st).instrs, o.errs ++ (f o.st).errs,
               (f o.st).st, (f o.st).fatal⟩ := by
  unfold Out.seq
  rw [h]

/-- Unfolding of `Out.seq` when the first component exited. -/
theorem Out.seq_of_some {o : Out} (f : St → Out) {e : Err} (h : o.fatal = some e) :
    o.seq f = o := by
  unfold Out.seq
  rw [h]

/-! ### Claim theorems -/

/-- C1: the claim that at every emitted `call` the net number of bytes
subtracted from `%rsp` since the function prologue is a multiple of 16 is
violated by the code: `call_function` releases only the alignment pad but
never the `(nparms - 6) * 8` bytes reserved for stack-passed arguments, so
for `h() { return f(g(1,2,3,4,5,6,7)) }` the generator emits
`subq $16, %rsp` / `call _func_g` / `addq $8, %rsp` and then
`call _func_f` with a net of 8 bytes subtracted since the prologue.  This
theorem evaluates the generator on that program: generation succeeds, the
alignment check over the emitted body (everything after
`pushq %rbp; movq %rsp, %rbp`) fails, and the exact emitted body is the
list shown. -/
theorem call_misaligned_after_nested_stack_args :
    (generate_function 20 sym_h (some body_h)).fatal = none ∧
    calls_aligned 0 ((generate_function 20 sym_h (some body_h)).instrs.drop 4) = false ∧
    (generate_function 20 sym_h (some body_h)).instrs.drop 4 =
      [Instr.subq_imm 16 "%rsp",
       Instr.movq "$1" "%rdi", Instr.movq "$2" "%rsi", Instr.movq "$3" "%rdx",
       Instr.movq "$4" "%rcx", Instr.movq "$5" "%r8", Instr.movq "$6" "%r9",
       Instr.movq "$7" "0(%rsp)",
       Instr.callq "_func_g",
       Instr.addq_imm 8 "%rsp",
       Instr.movq "%rax" "%rdi",
       Instr.callq "_func_f",
       Instr.leave, Instr.ret] := by
  decide

/-- C2: the claim that nested control structures of the same kind never
produce two definitions of the same label is violated by the code: an `if`
without `else` captures its `ENDIF<n>` label text before lowering its
then-branch, and a nested `if` without `else` inside that branch uses (and
defines) the same `ENDIF<n>` before the counter is incremented.  For
`q() { if 1 > 0 { if 1 > 0 { x := 1 } } }` the generator emits the label
definition `._q_ENDIF0:` twice. -/
theorem duplicate_endif_label_on_nested_if :
    (generate_function 20 sym_q (some body_q)).fatal = none ∧
    (defined_labels (generate_function 20 sym_q (some body_q)).instrs).count "._q_ENDIF0" = 2 ∧
    ¬ (defined_labels (generate_function 20 sym_q (some body_q)).instrs).Nodup := by
  decide

/-- C4: `get_slot` computes `min(5, nparms - 1) - seq` for a parameter (the
`size_t` wrap in `nparms - 1` is irrelevant for any function that has a
parameter at all) and `seq + min(6, nparms)` for a local variable, and every
slot access — `move_reg_to_slot`, `move_slot_to_reg`, and the operand built
by `write_variable_accessor` — addresses slot `k` at byte offset
`-(k+1)*8` from `%rbp`. -/
theorem get_slot_and_frame_offsets (F S : Symbol) :
    (S.type = SymType.SYM_PARAMETER → 1 ≤ F.nparms → F.nparms ≤ 2 ^ 64 →
      get_slot F S = min 5 ((F.nparms : Int) - 1) - (S.seq : Int)) ∧
    (S.type = SymType.SYM_LOCAL_VAR →
      get_slot F S = (S.seq : Int) + ((min 6 F.nparms : Nat) : Int)) ∧
    (∀ reg k, move_reg_to_slot reg k = Instr.movq reg (toString (-(k + 1) * 8) ++ "(%rbp)")) ∧
    (∀ reg k, move_slot_to_reg reg k = Instr.movq (toString (-(k + 1) * 8) ++ "(%rbp)") reg) ∧
    (S.type = SymType.SYM_PARAMETER ∨ S.type = SymType.SYM_LOCAL_VAR →
      write_variable_accessor S F =
        Except.ok (toString (-(get_slot F S + 1) * 8) ++ "(%rbp)")) := by
  refine ⟨?_, ?_, ?_, ?_, ?_⟩
  · intro hS h1 h64
    simp only [get_slot, if_pos hS]
    have hmod : (F.nparms + (2 ^ 64 - 1)) % 2 ^ 64 = F.nparms - 1 := by omega
    rw [hmod]
    have hcast : (Int.ofNat (min 5 (F.nparms - 1))) = min 5 ((F.nparms : Int) - 1) := by
      rcases le_total 5 (F.nparms - 1) with h | h
      · rw [min_eq_left h, min_eq_left (by omega)]
        simp
      · rw [min_eq_right h, min_eq_right (by omega)]
        simp [Int.ofNat_sub h1]
    rw [hcast]
    rfl
  · intro hS
    have : ¬ S.type = SymType.SYM_PARAMETER := by rw [hS]; decide
    simp only [get_slot, if_neg this]
    rfl
  · intro reg k
    have : ((k + 1) * (-8) : Int) = -(k + 1) * 8 := by ring
    simp [move_reg_to_slot, slot_operand, this]
  · intro reg k
    have : ((k + 1) * (-8) : Int) = -(k + 1) * 8 := by ring
    simp [move_slot_to_reg, slot_operand, this]
  · intro hS
    have : ((get_slot F S + 1) * (-8) : Int) = -(get_slot F S + 1) * 8 := by ring
    rcases hS with hS | hS <;>
      simp [write_variable_accessor, hS, slot_operand, this]

/-- C4 witness: the theorem instantiated at the 7-parameter function of
scenario E6 and its seventh parameter (`seq = 6`), and at a local variable
of a 2-parameter function. -/
theorem get_slot_and_frame_offsets_witness :
    (get_slot { name := "w", type := SymType.SYM_FUNCTION, seq := 0, nparms := 7, localsSize := 9 }
       { name := "p6", type := SymType.SYM_PARAMETER, seq := 6, nparms := 0, localsSize := 0 } =
       min 5 (((7 : Nat) : Int) - 1) - ((6 : Nat) : Int)) ∧
    (get_slot { name := "w2", type := SymType.SYM_FUNCTION, seq := 0, nparms := 2, localsSize := 3 }
       { name := "v", type := SymType.SYM_LOCAL_VAR, seq := 0, nparms := 0, localsSize := 0 } =
       ((0 : Nat) : Int) + ((min 6 2 : Nat) : Int)) := by
  constructor
  · exact (get_slot_and_frame_offsets
      { name := "w", type := SymType.SYM_FUNCTION, seq := 0, nparms := 7, localsSize := 9 }
      { name := "p6", type := SymType.SYM_PARAMETER, seq := 6, nparms := 0, localsSize := 0 }).1
      rfl (by decide) (by decide)
  · exact (get_slot_and_frame_offsets
      { name := "w2", type := SymType.SYM_FUNCTION, seq := 0, nparms := 2, localsSize := 3 }
      { name := "v", type := SymType.SYM_LOCAL_VAR, seq := 0, nparms := 0, localsSize := 0 }).2.1
      rfl

/-- C3: for an `EXPRESSION` node carrying a binary operator and two
children, the lowering emits exactly: the code for the right child with
destination `%rax`, then `pushq %rax` (emitted after the alignment counter
was increased by 8), the code for the left child with destination `%rax`
(running on the counter so increased), `popq %r10` (counter decreased by 8),
the operator's instructions (`binop_emit`: `orq/xorq/andq/addq/subq
%r10,%rax` for `|,^,&,+,-`, `imulq %r10` for `*`, `cqto; idivq %r10` for
`/`), and finally `movq %rax, D` exactly when the destination `D` is not
`%rax`.  The hypothesis `hD` records that for `D` the C four-character
prefix comparison `strncmp("%rax", D, 4)` agrees with full string equality,
which holds for every operand string the generator passes as a
destination. -/
theorem generate_expression_binary_emission (recur : Recur) (t : CTarget) (st : St)
    (n c1 c2 : Node) (op : String)
    (hn : t.node = some n)
    (hdata : n.data = NodeData.oper op)
    (hch : n.children = [some c1, some c2])
    (_hop : op.front ∈ ['|', '^', '&', '+', '-', '*', '/'])
    (hD : t.target_destination.toList.take 4 = ['%', 'r', 'a', 'x'] ↔
          t.target_destination = "%rax") :
    let right := recur
      { node := some c2, function := t.function, target_destination := "%rax",
        surrounding_loop_label := t.surrounding_loop_label }
      { st with returned := none }
    let left := recur
      { node := some c1, function := t.function, target_destination := "%rax",
        surrounding_loop_label := t.surrounding_loop_label }
      { right.st with alignment := right.st.alignment + 8, returned := none }
    right.fatal = none → left.fatal = none →
    (generate_expression recur t st).instrs =
      right.instrs ++ [Instr.pushq "%rax"] ++ left.instrs ++ [Instr.popq "%r10"]
        ++ binop_emit op.front
        ++ (if t.target_destination = "%rax" then []
            else [Instr.movq "%rax" t.target_destination]) := by
  intro right left hr hl
  have hop' : n.opData = some op := by
    simp [Node.opData, hdata]
  have hnc : n.n_children = 2 := by
    simp [Node.n_children, hch]
  unfold generate_expression
  rw [hn]
  simp only [hop', hnc, hch]
  norm_num
  rw [Out.seq_of_none _ hr]
  rw [Out.seq_of_none _ (by simp : (Out.emit [Instr.pushq "%rax"]
    { right.st with alignment := right.st.alignment + 8 }).fatal = none)]
  simp only [Out.emit_st, Out.emit_instrs, Out.emit_errs]
  rw [Out.seq_of_none _ hl]
  rw [Out.seq_of_none _ (by simp : (Out.emit [Instr.popq "%r10"]
    { left.st with alignment := left.st.alignment - 8 }).fatal = none)]
  simp only [Out.emit_st, Out.emit_instrs, Out.emit_errs]
  rw [Out.seq_of_none _ (by simp : (Out.emit (binop_emit op.front)
    { left.st with alignment := left.st.alignment - 8 }).fatal = none)]
  simp only [Out.emit_st, Out.emit_instrs, Out.emit_errs]
  by_cases hdst : t.target_destination = "%rax"
  · have hT : List.take 4 t.target_destination.data = ['%', 'r', 'a', 'x'] := by
      simpa [String.toList] using hD.mpr hdst
    simp [hT, hdst]
  · have hT : ¬ List.take 4 t.target_destination.data = ['%', 'r', 'a', 'x'] := by
      intro h
      exact hdst (hD.mp (by simpa [String.toList] using h))
    simp [hT, hdst]

/-- C3 witness: the theorem applied to `1 + 2` with destination `%rsi` and a
recursion stub that emits nothing, so the emission reduces to the push / pop
/ operator / final-move skeleton. -/
theorem generate_expression_binary_emission_witness :
    (generate_expression (fun _ s => Out.ofSt s)
      { node := some (Node.mk NodeType.EXPRESSION (NodeData.oper "+") none
          [some (num_node 1), some (num_node 2)]),
        function := sym_h, target_destination := "%rsi",
        surrounding_loop_label := none }
      { alignment := 0, mangle := 0, returned := some false }).instrs =
      [Instr.pushq "%rax", Instr.popq "%r10", Instr.addq, Instr.movq "%rax" "%rsi"] := by
  have h := generate_expression_binary_emission (fun _ s => Out.ofSt s)
    { node := some (Node.mk NodeType.EXPRESSION (NodeData.oper "+") none
        [some (num_node 1), some (num_node 2)]),
      function := sym_h, target_destination := "%rsi",
      surrounding_loop_label := none }
    { alignment := 0, mangle := 0, returned := some false }
    (Node.mk NodeType.EXPRESSION (NodeData.oper "+") none
      [some (num_node 1), some (num_node 2)])
    (num_node 1) (num_node 2) "+" rfl rfl rfl (by decide) (by decide)
  simpa using h rfl rfl

/-- C5: for an `ASSIGNMENT_STATEMENT` with children `[lhs_ident, rhs_expr]`
whose lhs resolves (global, parameter or local), the generator resolves the
lhs to its operand form (`.name` for a global, `k(%rbp)` for a parameter or
local), lowers the rhs with destination `%rax`, and then emits exactly the
line `movq %rax, <lhs_operand>` and nothing else. -/
theorem generate_assignment_emission (recur : Recur) (t : CTarget) (st : St)
    (n varNode valNode : Node) (sym : Symbol)
    (hn : t.node = some n)
    (hty : n.ty = NodeType.ASSIGNMENT_STATEMENT)
    (hch : n.children = [some varNode, some valNode])
    (hentry : varNode.entry = some sym)
    (hsym : sym.type ≠ SymType.SYM_FUNCTION)
    (hfat : (recur
      { node := some valNode, function := t.function, target_destination := "%rax",
        surrounding_loop_label := t.surrounding_loop_label } st).fatal = none) :
    write_variable_accessor sym t.function = Except.ok
      (if sym.type = SymType.SYM_GLOBAL_VAR then "." ++ sym.name
       else slot_operand (get_slot t.function sym)) ∧
    generate_assignment recur t st =
      ⟨(recur
          { node := some valNode, function := t.function, target_destination := "%rax",
            surrounding_loop_label := t.surrounding_loop_label } st).instrs ++
         [Instr.movq "%rax"
           (if sym.type = SymType.SYM_GLOBAL_VAR then "." ++ sym.name
            else slot_operand (get_slot t.function sym))],
       (recur
          { node := some valNode, function := t.function, target_destination := "%rax",
            surrounding_loop_label := t.surrounding_loop_label } st).errs,
       (recur
          { node := some valNode, function := t.function, target_destination := "%rax",
            surrounding_loop_label := t.surrounding_loop_label } st).st,
       none⟩ := by
  have hacc : write_variable_accessor sym t.function = Except.ok
      (if sym.type = SymType.SYM_GLOBAL_VAR then "." ++ sym.name
       else slot_operand (get_slot t.function sym)) := by
    cases hst : sym.type
    · simp [write_variable_accessor, hst]
    · exact absurd hst hsym
    · simp [write_variable_accessor, hst]
    · simp [write_variable_accessor, hst]
  refine ⟨hacc, ?_⟩
  unfold generate_assignment
  rw [hn]
  simp only [hch, hty, List.get?, Option.join, Option.some_bind, id_eq, hentry,
    ite_true, if_true]
  rw [hacc]
  simp only []
  rw [Out.seq_of_none _ hfat]
  simp

/-- C5 witness: the theorem applied to `x := 1` for the global `x`, with a
recursion stub that emits nothing: the whole emission is the single line
`movq %rax, .x`. -/
theorem generate_assignment_emission_witness :
    generate_assignment (fun _ s => Out.ofSt s)
      { node := some assign_x_1, function := sym_h, target_destination := "%rax",
        surrounding_loop_label := none }
      { alignment := 0, mangle := 0, returned := some false } =
      ⟨[Instr.movq "%rax" ".x"], [],
       { alignment := 0, mangle := 0, returned := some false }, none⟩ := by
  have h := generate_assignment_emission (fun _ s => Out.ofSt s)
    { node := some assign_x_1, function := sym_h, target_destination := "%rax",
      surrounding_loop_label := none }
    { alignment := 0, mangle := 0, returned := some false }
    assign_x_1 (ident_node sym_x) (num_node 1) sym_x rfl rfl rfl rfl (by decide) rfl
  simpa using h.2

/-- C7: at a call site, if the number of children of the argument list
differs from the callee's `nparms`, `call_function` exits with a diagnostic
naming the callee and the enclosing function before emitting anything (in
particular before the `call`); if the counts agree, no arity diagnostic is
produced and lowering proceeds to argument marshalling, the `call`, and the
unalign. -/
theorem call_function_arity_check (recur : Recur) (t : CTarget) (st : St)
    (n identifier : Node) (arglist? : Option Node) (func : Symbol)
    (hn : t.node = some n)
    (hch : n.children = [some identifier, arglist?])
    (hent : identifier.entry = some func) :
    let alloc := allocate_aligned_stack (max 6 func.nparms - 6) st
    let margs := gen_args recur t arglist? (List.range func.nparms) alloc.2.2
    (args_provided arglist? ≠ func.nparms →
      call_function recur t st =
        Out.fatalErr st (Err.arityMismatch func.name t.function.name)) ∧
    (args_provided arglist? = func.nparms → margs.fatal = none →
      call_function recur t st =
        ⟨alloc.2.1 ++ margs.instrs ++ [Instr.callq ("_func_" ++ func.name)] ++
           (unalign_stack alloc.1 margs.st).1,
         margs.errs,
         { (unalign_stack alloc.1 margs.st).2 with returned := st.returned },
         none⟩) := by
  intro alloc margs
  have hnc : ¬ n.n_children ≠ 2 := by
    simp [Node.n_children, hch]
  constructor
  · intro hne
    unfold call_function
    rw [hn]
    simp only [hch, if_neg hnc, hent]
    rw [if_pos hne]
  · intro heq hm
    unfold call_function
    rw [hn]
    simp only [hch, if_neg hnc, hent]
    rw [if_neg (by simp [heq])]
    rw [Out.seq_of_none _ (Out.emit_fatal _ _)]
    simp only [Out.emit_st, Out.emit_instrs, Out.emit_errs]
    rw [Out.seq_of_none _ hm]
    rw [Out.seq_of_none _ (Out.emit_fatal _ _)]
    simp only [Out.emit_st, Out.emit_instrs, Out.emit_errs]
    simp [Out.withReturned]

/-- C7 witness: calling the 1-parameter function `f` with an empty argument
list is rejected with the diagnostic naming `f` and the enclosing function
`h`, with nothing emitted. -/
theorem call_function_arity_check_witness :
    call_function (fun _ s => Out.ofSt s)
      { node := some (call_node sym_f []), function := sym_h,
        target_destination := "%rax", surrounding_loop_label := none }
      { alignment := 0, mangle := 0, returned := some false } =
      Out.fatalErr { alignment := 0, mangle := 0, returned := some false }
        (Err.arityMismatch "f" "h") := by
  have h := call_function_arity_check (fun _ s => Out.ofSt s)
    { node := some (call_node sym_f []), function := sym_h,
      target_destination := "%rax", surrounding_loop_label := none }
    { alignment := 0, mangle := 0, returned := some false }
    (call_node sym_f []) (ident_node sym_f)
    (some (Node.mk NodeType.ARGUMENT_LIST NodeData.nothing none []))
    sym_f rfl rfl rfl
  exact h.1 (by decide)

/-- C10: if a call node's argument-list child is a null pointer,
`call_function` counts zero provided arguments: the arity check succeeds
exactly when the callee's `nparms` is 0, and in that case the emission is
just the (possible) alignment `subq`, the `call`, and the (possible)
unalign — no argument-marshalling `movq` is emitted before the `call`. -/
theorem null_argument_list_zero_args (recur : Recur) (t : CTarget) (st : St)
    (n identifier : Node) (func : Symbol)
    (hn : t.node = some n)
    (hch : n.children = [some identifier, none])
    (hent : identifier.entry = some func) :
    ((call_function recur t st).fatal =
        some (Err.arityMismatch func.name t.function.name) ↔ func.nparms ≠ 0) ∧
    (func.nparms = 0 →
      call_function recur t st =
        ⟨(allocate_aligned_stack 0 st).2.1 ++ [Instr.callq ("_func_" ++ func.name)] ++
           (unalign_stack (allocate_aligned_stack 0 st).1
             (allocate_aligned_stack 0 st).2.2).1,
         [],
         { (unalign_stack (allocate_aligned_stack 0 st).1
             (allocate_aligned_stack 0 st).2.2).2 with returned := st.returned },
         none⟩ ∧
      (∀ s d, Instr.movq s d ∉ (allocate_aligned_stack 0 st).2.1)) := by
  have hnc : ¬ n.n_children ≠ 2 := by
    simp [Node.n_children, hch]
  have hzero : func.nparms = 0 →
      call_function recur t st =
        ⟨(allocate_aligned_stack 0 st).2.1 ++ [Instr.callq ("_func_" ++ func.name)] ++
           (unalign_stack (allocate_aligned_stack 0 st).1
             (allocate_aligned_stack 0 st).2.2).1,
         [],
         { (unalign_stack (allocate_aligned_stack 0 st).1
             (allocate_aligned_stack 0 st).2.2).2 with returned := st.returned },
         none⟩ := by
    intro h0
    unfold call_function
    rw [hn]
    simp only [hch, if_neg hnc, hent]
    rw [if_neg (by simp [args_provided, h0])]
    simp only [h0, List.range_zero]
    rw [Out.seq_of_none _ (Out.emit_fatal _ _)]
    simp only [Out.emit_st, Out.emit_instrs, Out.emit_errs]
    simp only [gen_args]
    rw [Out.seq_of_none _ (Out.ofSt_fatal _)]
    simp only [Out.ofSt_st, Out.ofSt_instrs, Out.ofSt_errs]
    rw [Out.seq_of_none _ (Out.emit_fatal _ _)]
    simp only [Out.emit_st, Out.emit_instrs, Out.emit_errs]
    simp [Out.withReturned]
  refine ⟨?_, fun h0 => ⟨hzero h0, ?_⟩⟩
  · constructor
    · intro hfat
      intro h0
      rw [hzero h0] at hfat
      simp at hfat
    · intro hne
      unfold call_function
      rw [hn]
      simp only [hch, if_neg hnc, hent]
      rw [if_pos (by simpa [args_provided] using Ne.symm hne)]
      rfl
  · intro s d
    simp only [allocate_aligned_stack]
    split_ifs <;> simp

/-- C10 witness: a call to the 0-parameter function `h` whose argument-list
pointer is NULL lowers to just `call _func_h` (the state starts aligned, so
no padding `subq` is needed either), and is not an arity error. -/
theorem null_argument_list_zero_args_witness :
    call_function (fun _ s => Out.ofSt s)
      { node := some (Node.mk NodeType.EXPRESSION NodeData.nothing none
          [some (ident_node sym_h), none]),
        function := sym_q, target_destination := "%rax",
        surrounding_loop_label := none }
      { alignment := 0, mangle := 0, returned := some false } =
      ⟨[Instr.callq "_func_h"], [],
       { alignment := 0, mangle := 0, returned := some false }, none⟩ := by
  have h := null_argument_list_zero_args (fun _ s => Out.ofSt s)
    { node := some (Node.mk NodeType.EXPRESSION NodeData.nothing none
        [some (ident_node sym_h), none]),
      function := sym_q, target_destination := "%rax",
      surrounding_loop_label := none }
    { alignment := 0, mangle := 0, returned := some false }
    (Node.mk NodeType.EXPRESSION NodeData.nothing none
      [some (ident_node sym_h), none])
    (ident_node sym_h) sym_h rfl rfl rfl
  have h2 := (h.2 rfl).1
  simpa using h2

/-- C9: for a relation operator character other than `=`, `>`, `<`,
`skip_jump_by_relation` writes an "Unknown relation operator" diagnostic to
stderr but emits no jump and, unlike every other error kind, does not
terminate the process: lowering an `if` over such a relation continues, the
then-code follows the condition code with no jump in between (the guarded
branch is entered unconditionally), and the result carries no fatal
marker. -/
theorem unknown_relation_nonfatal (recur : Recur) (t : CTarget) (st : St)
    (n rel thenN : Node) (s : String) (c : Char)
    (hn : t.node = some n)
    (hch : n.children = [some rel, some thenN])
    (hdata : rel.data = NodeData.oper s)
    (hc : s.front = c)
    (h1 : c ≠ '=') (h2 : c ≠ '>') (h3 : c ≠ '<') :
    (∀ l, skip_jump_by_relation c l =
      ([], [String.push "Unknown relation operator " c])) ∧
    (let cond := generate_conditional recur
        { node := some rel, function := t.function, target_destination := "",
          surrounding_loop_label := t.surrounding_loop_label }
        { st with returned := some false }
     let thn := recur
        { node := some thenN, function := t.function, target_destination := "",
          surrounding_loop_label := t.surrounding_loop_label } cond.st
     cond.fatal = none → thn.fatal = none →
     generate_if_statement recur t st =
       ⟨cond.instrs ++ thn.instrs ++
          [Instr.deflabel (make_label "ENDIF" t.function.name cond.st.mangle)],
        cond.errs ++ [String.push "Unknown relation operator " c] ++ thn.errs,
        { thn.st with mangle := thn.st.mangle + 1, returned := st.returned },
        none⟩) := by
  have hskip : ∀ l, skip_jump_by_relation c l =
      ([], [String.push "Unknown relation operator " c]) := by
    intro l
    unfold skip_jump_by_relation
    split <;> simp_all
  refine ⟨hskip, ?_⟩
  intro cond thn hcond hthn
  have hopc : node_op_char (some rel) = c := by
    simp [node_op_char, hdata, hc]
  have hnc3 : ¬ n.n_children = 3 := by
    simp [Node.n_children, hch]
  unfold generate_if_statement
  rw [hn]
  simp only [hch, List.get?, Option.join, Option.some_bind, id_eq, hnc3,
    if_false, hopc, hskip]
  rw [Out.seq_of_none _ hcond]
  rw [Out.seq_of_none _ (Out.emitErrs_fatal _ _ _)]
  simp only [Out.emitErrs_st, Out.emitErrs_instrs, Out.emitErrs_errs]
  rw [Out.seq_of_none _ hthn]
  rw [Out.seq_of_none _ (Out.ofSt_fatal _)]
  simp only [Out.ofSt_st, Out.ofSt_instrs, Out.ofSt_errs]
  rw [Out.seq_of_none _ (Out.emit_fatal _ _)]
  simp only [Out.emit_st, Out.emit_instrs, Out.emit_errs]
  rw [Out.seq_of_none _ (Out.ofSt_fatal _)]
  simp only [Out.ofSt_st, Out.ofSt_instrs, Out.ofSt_errs]
  simp [Out.withReturned, Out.seq]

/-- C9 witness: the theorem applied to `if 1 ! 0 { x := 1 }` (with the
unknown relation operator `!`) inside `h`, with a recursion stub: the
diagnostic is recorded, no jump is emitted between the comparison and the
then-branch, and generation ends without a fatal marker. -/
theorem unknown_relation_nonfatal_witness :
    generate_if_statement (fun _ s => Out.ofSt s)
      { node := some (Node.mk NodeType.IF_STATEMENT NodeData.nothing none
          [some (rel_node "!" (num_node 1) (num_node 0)), some assign_x_1]),
        function := sym_h, target_destination := "%rax",
        surrounding_loop_label := none }
      { alignment := 0, mangle := 0, returned := some false } =
      ⟨[Instr.pushq "%rax", Instr.popq "%r10", Instr.cmpq "%r11" "%r10",
        Instr.deflabel "._h_ENDIF0"],
       [String.push "Unknown relation operator " '!'],
       { alignment := 0, mangle := 1, returned := some false }, none⟩ := by
  have h := unknown_relation_nonfatal (fun _ s => Out.ofSt s)
    { node := some (Node.mk NodeType.IF_STATEMENT NodeData.nothing none
        [some (rel_node "!" (num_node 1) (num_node 0)), some assign_x_1]),
      function := sym_h, target_destination := "%rax",
      surrounding_loop_label := none }
    { alignment := 0, mangle := 0, returned := some false }
    (Node.mk NodeType.IF_STATEMENT NodeData.nothing none
      [some (rel_node "!" (num_node 1) (num_node 0)), some assign_x_1])
    (rel_node "!" (num_node 1) (num_node 0)) assign_x_1 "!" '!'
    rfl rfl rfl rfl (by decide) (by decide) (by decide)
  exact (h.2 (by decide) (by decide)).trans (by decide)

/-- Invariant of the entry-selection loop after processing the prefix `p` of
the globals table: either no function has been seen, or the candidate is a
seen function which is locked-in `main`, or — when unlocked — no `main` has
been seen and the candidate's `seq` is minimal among seen functions. -/
def EntryInv (p : List Symbol) (acc : Option Symbol × Bool) : Prop :=
  match acc.1 with
  | none => acc.2 = false ∧ ∀ s ∈ p, s.type ≠ SymType.SYM_FUNCTION
  | some m =>
    m ∈ p ∧ m.type = SymType.SYM_FUNCTION ∧
    (if acc.2 = true then m.name = "main"
     else (∀ s ∈ p, s.type = SymType.SYM_FUNCTION → s.name ≠ "main") ∧
          (∀ s ∈ p, s.type = SymType.SYM_FUNCTION → m.seq ≤ s.seq))

theorem entry_select_step_inv (p : List Symbol) (acc : Option Symbol × Bool)
    (sym : Symbol) (h : EntryInv p acc) :
    EntryInv (p ++ [sym]) (entry_select_step acc sym) := by
  by_cases hf : sym.type = SymType.SYM_FUNCTION
  · unfold entry_select_step
    rw [if_neg (by simpa using hf)]
    by_cases hm : sym.name = "main"
    · have hmb : (sym.name == "main") = true := by simpa using hm
      simp only [hmb, Bool.true_or, if_pos]
      unfold EntryInv
      refine ⟨List.mem_append_right _ (List.mem_singleton.mpr rfl), hf, ?_⟩
      simp [hm]
    · have hmb : (sym.name == "main") = false := by simpa using hm
      simp only [hmb, Bool.false_or]
      rcases hacc : acc.1 with _ | m
      · -- no candidate yet: the lock is false, so the symbol is taken
        unfold EntryInv at h
        rw [hacc] at h
        obtain ⟨hlock, hnofun⟩ := h
        simp only [hacc, hlock]
        norm_num
        unfold EntryInv
        refine ⟨List.mem_append_right _ (List.mem_singleton.mpr rfl), hf, ?_⟩
        rw [if_neg (by simp)]
        constructor
        · intro s hs _
          rcases List.mem_append.mp hs with hs | hs
          · exact absurd ‹s.type = SymType.SYM_FUNCTION› (hnofun s hs)
          · rw [List.mem_singleton.mp hs]
            exact hm
        · intro s hs hsf
          rcases List.mem_append.mp hs with hs | hs
          · exact absurd hsf (hnofun s hs)
          · rw [List.mem_singleton.mp hs]
      · unfold EntryInv at h
        rw [hacc] at h
        obtain ⟨hmem, hmf, hrest⟩ := h
        by_cases hlock : acc.2 = true
        · -- locked on main: nothing changes
          simp only [hacc, hlock]
          norm_num
          unfold EntryInv
          simp only [hacc]
          rw [if_pos hlock] at hrest
          refine ⟨List.mem_append_left _ hmem, hmf, ?_⟩
          rw [if_pos hlock]
          exact hrest
        · rw [if_neg hlock] at hrest
          obtain ⟨hnomain, hmin⟩ := hrest
          have hlock' : acc.2 = false := by
            revert hlock
            cases acc.2 <;> simp
          by_cases hlt : m.seq > sym.seq
          · -- strictly smaller seq: the symbol replaces the candidate
            simp only [hacc, hlock', hlt]
            norm_num
            unfold EntryInv
            refine ⟨List.mem_append_right _ (List.mem_singleton.mpr rfl), hf, ?_⟩
            rw [if_neg (by simp)]
            constructor
            · intro s hs hsf
              rcases List.mem_append.mp hs with hs | hs
              · exact hnomain s hs hsf
              · rw [List.mem_singleton.mp hs]
                exact hm
            · intro s hs hsf
              rcases List.mem_append.mp hs with hs | hs
              · exact le_trans (le_of_lt hlt) (hmin s hs hsf)
              · rw [List.mem_singleton.mp hs]
          · -- not smaller: the candidate stays
            simp only [hacc, hlock', hlt]
            norm_num
            unfold EntryInv
            simp only [hacc]
            refine ⟨List.mem_append_left _ hmem, hmf, ?_⟩
            rw [if_neg (by simp [hlock'])]
            constructor
            · intro s hs hsf
              rcases List.mem_append.mp hs with hs | hs
              · exact hnomain s hs hsf
              · rw [List.mem_singleton.mp hs]
                exact hm
            · intro s hs hsf
              rcases List.mem_append.mp hs with hs | hs
              · exact hmin s hs hsf
              · rw [List.mem_singleton.mp hs]
                omega
  · unfold entry_select_step
    rw [if_pos (by simpa using hf)]
    unfold EntryInv at h ⊢
    rcases hacc : acc.1 with _ | m <;> simp only [hacc] at h ⊢
    · refine ⟨h.1, ?_⟩
      intro s hs
      rcases List.mem_append.mp hs with hs | hs
      · exact h.2 s hs
      · rw [List.mem_singleton.mp hs]
        exact hf
    · obtain ⟨hmem, hmf, hrest⟩ := h
      refine ⟨List.mem_append_left _ hmem, hmf, ?_⟩
      by_cases hlock : acc.2 = true
      · rw [if_pos hlock] at hrest ⊢
        exact hrest
      · rw [if_neg hlock] at hrest ⊢
        obtain ⟨hnomain, hmin⟩ := hrest
        constructor
        · intro s hs hsf
          rcases List.mem_append.mp hs with hs | hs
          · exact hnomain s hs hsf
          · rw [List.mem_singleton.mp hs] at hsf
            exact absurd hsf hf
        · intro s hs hsf
          rcases List.mem_append.mp hs with hs | hs
          · exact hmin s hs hsf
          · rw [List.mem_singleton.mp hs] at hsf
            exact absurd hsf hf

theorem entry_select_fold_inv :
    ∀ (l p : List Symbol) (acc : Option Symbol × Bool), EntryInv p acc →
      EntryInv (p ++ l) (l.foldl entry_select_step acc)
  | [], p, acc, h => by simpa using h
  | a :: l, p, acc, h => by
    have step := entry_select_step_inv p acc a h
    have ih := entry_select_fold_inv l (p ++ [a]) (entry_select_step acc a) step
    simpa using ih

theorem select_entry_inv (l : List Symbol) :
    EntryInv l (l.foldl entry_select_step (none, false)) := by
  have h0 : EntryInv [] ((none : Option Symbol), false) := by
    unfold EntryInv
    simp
  simpa using entry_select_fold_inv l [] (none, false) h0

theorem generate_functions_fst (fuel : Nat) (bodyOf : Symbol → Option Node) :
    ∀ (l : List Symbol) (acc : Option Symbol × Bool) (out : Out),
      (l.foldl
        (fun acc sym =>
          if sym.type = SymType.SYM_FUNCTION then
            (entry_select_step acc.1 sym,
             acc.2.append (generate_function fuel sym (bodyOf sym)))
          else acc)
        (acc, out)).1 = l.foldl entry_select_step acc
  | [], acc, out => rfl
  | a :: l, acc, out => by
    by_cases hf : a.type = SymType.SYM_FUNCTION
    · simp only [List.foldl_cons, if_pos hf]
      rw [generate_functions_fst fuel bodyOf l _ _]
    · simp only [List.foldl_cons, if_neg hf]
      rw [generate_functions_fst fuel bodyOf l acc out]
      have : entry_select_step acc a = acc := by
        unfold entry_select_step
        rw [if_pos (by simpa using hf)]
      rw [this]

/-- C6: for a globals table containing at least one `FUNCTION` symbol, with
distinct function `seq` values and at most one function named `"main"`, the
entry function selected by the iteration (and targeted by the trampoline's
`call _func_<name>`) is the function literally named `"main"` when one
exists, and otherwise the function with the smallest `seq` — and the
selection does not depend on the iteration order of the table. -/
theorem entry_function_selection (fuel : Nat) (l : List Symbol)
    (bodyOf : Symbol → Option Node)
    (hex : ∃ s ∈ l, s.type = SymType.SYM_FUNCTION)
    (huniq : ∀ s ∈ l, ∀ u ∈ l, s.type = SymType.SYM_FUNCTION →
      u.type = SymType.SYM_FUNCTION → s.name = "main" → u.name = "main" → s = u)
    (hseq : ∀ s ∈ l, ∀ u ∈ l, s.type = SymType.SYM_FUNCTION →
      u.type = SymType.SYM_FUNCTION → s.seq = u.seq → s = u) :
    ∃ m, select_entry l = some m ∧ m ∈ l ∧ m.type = SymType.SYM_FUNCTION ∧
      ((∃ s ∈ l, s.type = SymType.SYM_FUNCTION ∧ s.name = "main") →
        m.name = "main") ∧
      ((¬ ∃ s ∈ l, s.type = SymType.SYM_FUNCTION ∧ s.name = "main") →
        ∀ s ∈ l, s.type = SymType.SYM_FUNCTION → m.seq ≤ s.seq) ∧
      (generate_functions fuel l bodyOf).1.1 = some m ∧
      Instr.callq ("_func_" ++ m.name) ∈ (generate_main m).instrs ∧
      (∀ l', l'.Perm l → select_entry l' = some m) := by
  have hInv := select_entry_inv l
  rcases hr1 : (l.foldl entry_select_step (none, false)).1 with _ | m
  · exfalso
    unfold EntryInv at hInv
    simp only [hr1] at hInv
    obtain ⟨s, hs, hsf⟩ := hex
    exact hInv.2 s hs hsf
  · unfold EntryInv at hInv
    simp only [hr1] at hInv
    obtain ⟨hmem, hmf, hrest⟩ := hInv
    have hmain_name : (∃ s ∈ l, s.type = SymType.SYM_FUNCTION ∧ s.name = "main") →
        m.name = "main" := by
      intro hmx
      obtain ⟨s, hs, hsf, hsm⟩ := hmx
      by_cases hlock : (l.foldl entry_select_step (none, false)).2 = true
      · rw [if_pos hlock] at hrest
        exact hrest
      · rw [if_neg hlock] at hrest
        exact absurd hsm (hrest.1 s hs hsf)
    have hmin_all : (¬ ∃ s ∈ l, s.type = SymType.SYM_FUNCTION ∧ s.name = "main") →
        ∀ s ∈ l, s.type = SymType.SYM_FUNCTION → m.seq ≤ s.seq := by
      intro hnomain
      by_cases hlock : (l.foldl entry_select_step (none, false)).2 = true
      · rw [if_pos hlock] at hrest
        exact absurd ⟨m, hmem, hmf, hrest⟩ hnomain
      · rw [if_neg hlock] at hrest
        exact hrest.2
    refine ⟨m, ?_, hmem, hmf, hmain_name, hmin_all, ?_, ?_, ?_⟩
    · simpa [select_entry] using hr1
    · unfold generate_functions
      rw [generate_functions_fst fuel bodyOf l (none, false) _]
      exact hr1
    · simp [generate_main]
    · intro l' hperm
      have hInv' := select_entry_inv l'
      rcases hr1' : (l'.foldl entry_select_step (none, false)).1 with _ | m'
      · exfalso
        unfold EntryInv at hInv'
        simp only [hr1'] at hInv'
        obtain ⟨s, hs, hsf⟩ := hex
        exact hInv'.2 s (hperm.mem_iff.mpr hs) hsf
      · unfold EntryInv at hInv'
        simp only [hr1'] at hInv'
        obtain ⟨hmem', hmf', hrest'⟩ := hInv'
        have hmem'l : m' ∈ l := hperm.mem_iff.mp hmem'
        suffices hmm : m' = m by
          rw [select_entry, hr1', hmm]
        by_cases hmainex : ∃ s ∈ l, s.type = SymType.SYM_FUNCTION ∧ s.name = "main"
        · have hm'_name : m'.name = "main" := by
            by_cases hlock' : (l'.foldl entry_select_step (none, false)).2 = true
            · rw [if_pos hlock'] at hrest'
              exact hrest'
            · rw [if_neg hlock'] at hrest'
              obtain ⟨s, hs, hsf, hsm⟩ := hmainex
              exact absurd hsm (hrest'.1 s (hperm.mem_iff.mpr hs) hsf)
          exact huniq m' hmem'l m hmem hmf' hmf hm'_name (hmain_name hmainex)
        · have hmin' : ∀ s ∈ l', s.type = SymType.SYM_FUNCTION → m'.seq ≤ s.seq := by
            by_cases hlock' : (l'.foldl entry_select_step (none, false)).2 = true
            · rw [if_pos hlock'] at hrest'
              exact absurd ⟨m', hmem'l, hmf', hrest'⟩ hmainex
            · rw [if_neg hlock'] at hrest'
              exact hrest'.2
          have h1 : m.seq ≤ m'.seq := hmin_all hmainex m' hmem'l hmf'
          have h2 : m'.seq ≤ m.seq := hmin' m (hperm.mem_iff.mpr hmem) hmf
          exact hseq m' hmem'l m hmem hmf' hmf (le_antisymm h2 h1)

/-- C6 witness: the theorem applied to the table `[g, f, x, h]` (no
function named `main`): the entry function is `g`, the function with the
smallest `seq`. -/
theorem entry_function_selection_witness :
    ∃ m, select_entry [sym_g, sym_f, sym_x, sym_h] = some m ∧
      m ∈ [sym_g, sym_f, sym_x, sym_h] ∧ m.type = SymType.SYM_FUNCTION ∧
      ((∃ s ∈ [sym_g, sym_f, sym_x, sym_h],
          s.type = SymType.SYM_FUNCTION ∧ s.name = "main") → m.name = "main") ∧
      ((¬ ∃ s ∈ [sym_g, sym_f, sym_x, sym_h],
          s.type = SymType.SYM_FUNCTION ∧ s.name = "main") →
        ∀ s ∈ [sym_g, sym_f, sym_x, sym_h],
          s.type = SymType.SYM_FUNCTION → m.seq ≤ s.seq) ∧
      (generate_functions 5 [sym_g, sym_f, sym_x, sym_h] (fun _ => none)).1.1 = some m ∧
      Instr.callq ("_func_" ++ m.name) ∈ (generate_main m).instrs ∧
      (∀ l', l'.Perm [sym_g, sym_f, sym_x, sym_h] → select_entry l' = some m) :=
  entry_function_selection 5 [sym_g, sym_f, sym_x, sym_h] (fun _ => none)
    (by decide) (by decide) (by decide)

/-! ### Preservation of the caller's `returned` cell (claim C8) -/

theorem call_function_returned (recur : Recur) (t : CTarget) (st : St) :
    (call_function recur t st).st.returned = st.returned := by
  unfold call_function
  repeat' split
  all_goals rfl

theorem generate_conditional_returned (recur : Recur) (t : CTarget) (st : St) :
    (generate_conditional recur t st).st.returned = st.returned := by
  unfold generate_conditional
  split
  · rfl
  · rfl

theorem generate_if_statement_returned (recur : Recur) (t : CTarget) (st : St) :
    (generate_if_statement recur t st).st.returned = st.returned := by
  unfold generate_if_statement
  split
  · rfl
  · rfl

theorem generate_while_statement_returned (recur : Recur) (t : CTarget) (st : St) :
    (generate_while_statement recur t st).st.returned = st.returned := by
  unfold generate_while_statement
  split
  · rfl
  · rfl

theorem access_variable_returned (reg : String) (sym : Symbol) (function : Symbol)
    (st : St) : (access_variable reg sym function st).st.returned = st.returned := by
  unfold access_variable
  split
  all_goals rfl

theorem write_variable_returned (reg : String) (sym : Symbol) (function : Symbol)
    (st : St) : (write_variable reg sym function st).st.returned = st.returned := by
  unfold write_variable
  split
  all_goals rfl

theorem printf_call_returned (st : St) :
    (printf_call st).st.returned = st.returned := by
  by_cases h : st.alignment % 16 = 0
  · simp [printf_call, align_stack, unalign_stack, h]
  · have h2 : 16 - st.alignment % 16 ≠ 0 := by omega
    simp [printf_call, align_stack, unalign_stack, h, h2]

theorem no_exposed_of_mem {cs : List (Option Node)}
    (h : no_exposed_return_list cs = true) {m : Node} (hm : some m ∈ cs) :
    no_exposed_return m = true := by
  induction cs with
  | nil => cases hm
  | cons c rest ih =>
    rcases List.mem_cons.mp hm with hc | hc
    · rw [← hc] at h
      unfold no_exposed_return_list at h
      have h' : no_exposed_return m = true ∧ no_exposed_return_list rest = true := by
        simpa using h
      exact h'.1
    · cases c with
      | none =>
        unfold no_exposed_return_list at h
        exact ih h hc
      | some x =>
        unfold no_exposed_return_list at h
        have h' : no_exposed_return x = true ∧ no_exposed_return_list rest = true := by
          simpa using h
        exact ih h'.2 hc

theorem join_get_mem {cs : List (Option Node)} {i : Nat} {m : Node}
    (h : (cs.get? i).join = some m) : some m ∈ cs := by
  cases hg : cs.get? i with
  | none =>
    rw [hg] at h
    cases h
  | some c =>
    rw [hg] at h
    have : c = some m := by
      cases c with
      | none => cases h
      | some x => simpa using h
    rw [← this]
    exact List.get?_mem hg

theorem Out.seq_returned (o : Out) (f : St → Out)
    (h2 : ∀ s, (f s).st.returned = s.returned) :
    (o.seq f).st.returned = o.st.returned := by
  cases hf : o.fatal with
  | none =>
    rw [Out.seq_of_none _ hf]
    exact h2 o.st
  | some e => rw [Out.seq_of_some _ hf]

theorem generate_children_returned (recur : Recur) (t : CTarget)
    (hpres : ∀ t' st', (∀ m, t'.node = some m → no_exposed_return m = true) →
      (recur t' st').st.returned = st'.returned) :
    ∀ (cs : List (Option Node)), no_exposed_return_list cs = true →
      ∀ st, (generate_children recur t cs st).st.returned = st.returned
  | [], _, st => rfl
  | none :: _, _, st => rfl
  | some child :: rest, h, st => by
    have h' : no_exposed_return child = true ∧ no_exposed_return_list rest = true := by
      unfold no_exposed_return_list at h
      simpa using h
    simp only [generate_children]
    split
    · exact generate_children_returned recur t hpres rest h'.2 st
    · refine (Out.seq_returned _ _ ?_).trans ?_
      · intro s
        exact generate_children_returned recur t hpres rest h'.2 s
      · refine hpres _ st ?_
        intro m hm
        have hcm : child = m := by simpa using hm
        rw [← hcm]
        exact h'.1

theorem generate_print_items_returned (recur : Recur) (t : CTarget)
    (hpres : ∀ t' st', (∀ m, t'.node = some m → no_exposed_return m = true) →
      (recur t' st').st.returned = st'.returned) :
    ∀ (cs : List (Option Node)), no_exposed_return_list cs = true →
      ∀ st, (generate_print_items recur t cs st).st.returned = st.returned
  | [], _, st => rfl
  | none :: _, _, st => rfl
  | some item :: rest, h, st => by
    have h' : no_exposed_return item = true ∧ no_exposed_return_list rest = true := by
      unfold no_exposed_return_list at h
      simpa using h
    simp only [generate_print_items]
    refine (Out.seq_returned _ _ ?_).trans ?_
    · intro s
      exact generate_print_items_returned recur t hpres rest h'.2 s
    · refine (Out.seq_returned _ _ (fun s => printf_call_returned s)).trans ?_
      split
      · rfl
      · split
        · rfl
        · exact (Out.seq_returned _ _ (fun s =>
            access_variable_returned _ _ _ s)).trans rfl
      · refine (Out.seq_returned _ _ (fun s => rfl)).trans ?_
        refine hpres _ st ?_
        intro m hm
        have hcm : item = m := by simpa using hm
        rw [← hcm]
        exact h'.1
      · rfl

theorem generate_expression_returned (recur : Recur) (t : CTarget) (st : St)
    (n : Node) (hn : t.node = some n)
    (hlist : no_exposed_return_list n.children = true)
    (hpres : ∀ t' st', (∀ m, t'.node = some m → no_exposed_return m = true) →
      (recur t' st').st.returned = st'.returned) :
    (generate_expression recur t st).st.returned = st.returned := by
  unfold generate_expression
  rw [hn]
  cases hod : n.opData with
  | none =>
    simp only [hod]
    split
    · refine (Out.seq_returned _ _ ?_).trans (call_function_returned recur t st)
      intro s
      split <;> rfl
    · refine hpres _ st ?_
      intro m hm
      exact no_exposed_of_mem hlist (join_get_mem hm)
  | some op =>
    simp only [hod]
    split
    · refine (Out.seq_returned _ _ ?_).trans ?_
      · intro s
        split <;> rfl
      · refine hpres _ st ?_
        intro m hm
        exact no_exposed_of_mem hlist (join_get_mem hm)
    · rfl

theorem generate_assignment_returned (recur : Recur) (t : CTarget) (st : St)
    (n : Node) (hn : t.node = some n)
    (hlist : no_exposed_return_list n.children = true)
    (hpres : ∀ t' st', (∀ m, t'.node = some m → no_exposed_return m = true) →
      (recur t' st').st.returned = st'.returned) :
    (generate_assignment recur t st).st.returned = st.returned := by
  unfold generate_assignment
  rw [hn]
  dsimp only
  split
  · rfl
  · split
    · rfl
    · split
      · split
        · rfl
        · refine (Out.seq_returned _ _ (fun s => rfl)).trans ?_
          refine hpres _ st ?_
          intro m hm
          exact no_exposed_of_mem hlist (join_get_mem hm)
      · refine (Out.seq_returned _ _ ?_).trans ?_
        · intro s
          refine (Out.seq_returned _ _ ?_).trans (access_variable_returned _ _ _ s)
          intro s2
          refine (Out.seq_returned _ _ ?_).trans rfl
          intro s3
          exact write_variable_returned _ _ _ s3
        · refine hpres _ st ?_
          intro m hm
          exact no_exposed_of_mem hlist (join_get_mem hm)

theorem genereate_number_data_returned (t : CTarget) (st : St) :
    (genereate_number_data t st).st.returned = st.returned := by
  unfold genereate_number_data
  split <;> rfl

theorem generate_print_statement_returned (recur : Recur) (t : CTarget) (st : St)
    (n : Node) (hn : t.node = some n)
    (hlist : no_exposed_return_list n.children = true)
    (hpres : ∀ t' st', (∀ m, t'.node = some m → no_exposed_return m = true) →
      (recur t' st').st.returned = st'.returned) :
    (generate_print_statement recur t st).st.returned = st.returned := by
  unfold generate_print_statement
  rw [hn]
  refine (Out.seq_returned _ _ ?_).trans
    (generate_print_items_returned recur t hpres n.children hlist st)
  intro s
  refine (Out.seq_returned _ _ ?_).trans rfl
  intro s2
  exact printf_call_returned s2

/-- A `returned` cell is written only by a `RETURN_STATEMENT` reached with
that cell: lowering any node all of whose returns are confined to `if` /
`while` bodies leaves the incoming cell value unchanged. -/
theorem generate_node_returned : ∀ (fuel : Nat) (t : CTarget) (st : St),
    (∀ m, t.node = some m → no_exposed_return m = true) →
    (generate_node fuel t st).st.returned = st.returned := by
  intro fuel
  induction fuel with
  | zero =>
    intro t st _
    rfl
  | succ fuel ih =>
    intro t st h
    cases hnode : t.node with
    | none => simp [generate_node, hnode]
    | some n =>
      have hnr : no_exposed_return n = true := h n hnode
      obtain ⟨ty, d, e, cs⟩ := n
      cases ty
      case IF_STATEMENT =>
        simp only [generate_node, hnode, Node.ty]
        exact generate_if_statement_returned _ _ _
      case WHILE_STATEMENT =>
        simp only [generate_node, hnode, Node.ty]
        exact generate_while_statement_returned _ _ _
      case NULL_STATEMENT =>
        simp only [generate_node, hnode, Node.ty]
        split <;> rfl
      case EXPRESSION =>
        simp only [generate_node, hnode, Node.ty]
        have hlist : no_exposed_return_list cs = true := by
          simpa [no_exposed_return] using hnr
        exact generate_expression_returned _ _ _ _ hnode hlist ih
      case IDENTIFIER_DATA =>
        simp only [generate_node, hnode, Node.ty, Node.entry]
        split
        · rfl
        · exact access_variable_returned _ _ _ _
      case NUMBER_DATA =>
        simp only [generate_node, hnode, Node.ty]
        exact genereate_number_data_returned _ _
      case ASSIGNMENT_STATEMENT =>
        simp only [generate_node, hnode, Node.ty]
        have hlist : no_exposed_return_list cs = true := by
          simpa [no_exposed_return] using hnr
        exact generate_assignment_returned _ _ _ _ hnode hlist ih
      case ADD_STATEMENT =>
        simp only [generate_node, hnode, Node.ty]
        have hlist : no_exposed_return_list cs = true := by
          simpa [no_exposed_return] using hnr
        exact generate_assignment_returned _ _ _ _ hnode hlist ih
      case SUBTRACT_STATEMENT =>
        simp only [generate_node, hnode, Node.ty]
        have hlist : no_exposed_return_list cs = true := by
          simpa [no_exposed_return] using hnr
        exact generate_assignment_returned _ _ _ _ hnode hlist ih
      case MULTIPLY_STATEMENT =>
        simp only [generate_node, hnode, Node.ty]
        have hlist : no_exposed_return_list cs = true := by
          simpa [no_exposed_return] using hnr
        exact generate_assignment_returned _ _ _ _ hnode hlist ih
      case DIVIDE_STATEMENT =>
        simp only [generate_node, hnode, Node.ty]
        have hlist : no_exposed_return_list cs = true := by
          simpa [no_exposed_return] using hnr
        exact generate_assignment_returned _ _ _ _ hnode hlist ih
      case PRINT_STATEMENT =>
        simp only [generate_node, hnode, Node.ty]
        have hlist : no_exposed_return_list cs = true := by
          simpa [no_exposed_return] using hnr
        exact generate_print_statement_returned _ _ _ _ hnode hlist ih
      case RETURN_STATEMENT =>
        exact absurd hnr (by simp [no_exposed_return])
      case RELATION =>
        simp only [generate_node, hnode, Node.ty]
        have hlist : no_exposed_return_list cs = true := by
          simpa [no_exposed_return] using hnr
        split
        · rfl
        · exact generate_children_returned _ _ ih cs hlist st
      case STRING_DATA =>
        simp only [generate_node, hnode, Node.ty]
        have hlist : no_exposed_return_list cs = true := by
          simpa [no_exposed_return] using hnr
        split
        · rfl
        · exact generate_children_returned _ _ ih cs hlist st
      case DECLARATION =>
        simp only [generate_node, hnode, Node.ty]
        have hlist : no_exposed_return_list cs = true := by
          simpa [no_exposed_return] using hnr
        split
        · rfl
        · exact generate_children_returned _ _ ih cs hlist st
      case BLOCK =>
        simp only [generate_node, hnode, Node.ty]
        have hlist : no_exposed_return_list cs = true := by
          simpa [no_exposed_return] using hnr
        split
        · rfl
        · exact generate_children_returned _ _ ih cs hlist st
      case ARGUMENT_LIST =>
        simp only [generate_node, hnode, Node.ty]
        have hlist : no_exposed_return_list cs = true := by
          simpa [no_exposed_return] using hnr
        split
        · rfl
        · exact generate_children_returned _ _ ih cs hlist st
      case PROGRAM =>
        simp only [generate_node, hnode, Node.ty]
        have hlist : no_exposed_return_list cs = true := by
          simpa [no_exposed_return] using hnr
        split
        · rfl
        · exact generate_children_returned _ _ ih cs hlist st

/-- C8: `generate_if_statement` and `generate_while_statement` hand their
children a fresh local `returned` cell, so (a) lowering a body whose return
statements all occur inside `if`/`while` bodies leaves the function-level
flag unchanged; (b) for such a body, `generate_function` observes a false
flag and emits the implicit epilogue `movq $0, %rax; leave; ret`; and (c) a
sibling statement following such a control structure in a block is still
lowered (the child loop emits both children's code in order). -/
theorem returned_flag_confined_to_control_structures (fuel : Nat) (f : Symbol)
    (body : Node) (hb : no_exposed_return body = true) :
    (∀ st, (generate_node fuel
      { node := some body, function := f, target_destination := "%rax",
        surrounding_loop_label := none } st).st.returned = st.returned) ∧
    (let st1 := (allocate_stack (min 6 f.nparms + get_variable_count f)
        { alignment := 0, mangle := 0, returned := some false }).2
     let bodyOut := generate_node fuel
        { node := some body, function := f, target_destination := "%rax",
          surrounding_loop_label := none } st1
     bodyOut.fatal = none →
     generate_function fuel f (some body) =
       ⟨([Instr.directive (".globl _func_" ++ f.name),
          Instr.deflabel ("_func_" ++ f.name),
          Instr.pushq "%rbp", Instr.movq "%rsp" "%rbp"] ++
         (allocate_stack (min 6 f.nparms + get_variable_count f)
           { alignment := 0, mangle := 0, returned := some false }).1 ++
         (List.range (min 6 f.nparms)).map (fun param =>
           move_reg_to_slot (parameter_register (min 6 f.nparms - param - 1))
             (Int.ofNat param))) ++
        bodyOut.instrs ++
        [Instr.comment "Automatically generated return statement",
         Instr.movq "$0" "%rax", Instr.leave, Instr.ret],
        bodyOut.errs, bodyOut.st, none⟩) ∧
    (∀ (c1 c2 : Node) (st : St) (dest : String) (loop : Option String),
      st.returned = some false →
      c1.ty ≠ NodeType.DECLARATION → c2.ty ≠ NodeType.DECLARATION →
      (generate_node fuel
        { node := some c1, function := f, target_destination := dest,
          surrounding_loop_label := loop } st).fatal = none →
      (generate_node (fuel + 1)
        { node := some (Node.mk NodeType.BLOCK NodeData.nothing none
            [some c1, some c2]),
          function := f, target_destination := dest,
          surrounding_loop_label := loop } st).instrs =
        (generate_node fuel
          { node := some c1, function := f, target_destination := dest,
            surrounding_loop_label := loop } st).instrs ++
        (generate_node fuel
          { node := some c2, function := f, target_destination := dest,
            surrounding_loop_label := loop }
          (generate_node fuel
            { node := some c1, function := f, target_destination := dest,
              surrounding_loop_label := loop } st).st).instrs) := by
  have hpred : ∀ m, (some body : Option Node) = some m → no_exposed_return m = true := by
    intro m hm
    cases hm
    exact hb
  have hA : ∀ st, (generate_node fuel
      { node := some body, function := f, target_destination := "%rax",
        surrounding_loop_label := none } st).st.returned = st.returned :=
    fun st => generate_node_returned fuel _ st hpred
  refine ⟨hA, ?_, ?_⟩
  · intro st1 bodyOut hfat
    have hst1 : st1.returned = some false := by
      show ((allocate_stack (min 6 f.nparms + get_variable_count f)
        { alignment := 0, mangle := 0, returned := some false }).2).returned = some false
      by_cases hz : min 6 f.nparms + get_variable_count f = 0 <;>
        simp [allocate_stack, hz]
    have hret : bodyOut.st.returned = some false := (hA st1).trans hst1
    unfold generate_function
    rw [Out.seq_of_none _ (Out.emit_fatal _ _)]
    simp only [Out.emit_st, Out.emit_instrs, Out.emit_errs]
    rw [Out.seq_of_none _ hfat]
    rw [if_neg (by rw [hret]; simp)]
    simp
  · intro c1 c2 st dest loop hst hd1 hd2 hfat1
    simp only [generate_node, Node.ty]
    rw [if_neg (by rw [hst]; simp)]
    simp only [generate_children, if_neg hd1, if_neg hd2]
    rw [Out.seq_of_none _ hfat1]
    dsimp only
    cases hfat2 : (generate_node fuel
        { node := some c2, function := f, target_destination := dest,
          surrounding_loop_label := loop }
        (generate_node fuel
          { node := some c1, function := f, target_destination := dest,
            surrounding_loop_label := loop } st).st).fatal with
    | none =>
      rw [Out.seq_of_none _ hfat2]
      simp [generate_children]
    | some e =>
      rw [Out.seq_of_some _ hfat2]

/-- C8 witness: the theorem applied to `q` with the body
`{ if 1 > 0 { return 7 } ; x := 1 }`, whose only return sits inside the
`if`. -/
theorem returned_flag_confined_witness :
    (∀ st, (generate_node 10
      { node := some body_c8, function := sym_q, target_destination := "%rax",
        surrounding_loop_label := none } st).st.returned = st.returned) ∧
    (let st1 := (allocate_stack (min 6 sym_q.nparms + get_variable_count sym_q)
        { alignment := 0, mangle := 0, returned := some false }).2
     let bodyOut := generate_node 10
        { node := some body_c8, function := sym_q, target_destination := "%rax",
          surrounding_loop_label := none } st1
     bodyOut.fatal = none →
     generate_function 10 sym_q (some body_c8) =
       ⟨([Instr.directive (".globl _func_" ++ sym_q.name),
          Instr.deflabel ("_func_" ++ sym_q.name),
          Instr.pushq "%rbp", Instr.movq "%rsp" "%rbp"] ++
         (allocate_stack (min 6 sym_q.nparms + get_variable_count sym_q)
           { alignment := 0, mangle := 0, returned := some false }).1 ++
         (List.range (min 6 sym_q.nparms)).map (fun param =>
           move_reg_to_slot (parameter_register (min 6 sym_q.nparms - param - 1))
             (Int.ofNat param))) ++
        bodyOut.instrs ++
        [Instr.comment "Automatically generated return statement",
         Instr.movq "$0" "%rax", Instr.leave, Instr.ret],
        bodyOut.errs, bodyOut.st, none⟩) ∧
    (∀ (c1 c2 : Node) (st : St) (dest : String) (loop : Option String),
      st.returned = some false →
      c1.ty ≠ NodeType.DECLARATION → c2.ty ≠ NodeType.DECLARATION →
      (generate_node 10
        { node := some c1, function := sym_q, target_destination := dest,
          surrounding_loop_label := loop } st).fatal = none →
      (generate_node 11
        { node := some (Node.mk NodeType.BLOCK NodeData.nothing none
            [some c1, some c2]),
          function := sym_q, target_destination := dest,
          surrounding_loop_label := loop } st).instrs =
        (generate_node 10
          { node := some c1, function := sym_q, target_destination := dest,
            surrounding_loop_label := loop } st).instrs ++
        (generate_node 10
          { node := some c2, function := sym_q, target_destination := dest,
            surrounding_loop_label := loop }
          (generate_node 10
            { node := some c1, function := sym_q, target_destination := dest,
              surrounding_loop_label := loop } st).st).instrs) :=
  returned_flag_confined_to_control_structures 10 sym_q body_c8
    (by simp [no_exposed_return, no_exposed_return_list, body_c8, assign_x_1,
      rel_node, num_node, ident_node])

end Vslc
